import Mathlib

/-!
Verification of the e-commerce analytics backend (REST API + multi-agent
keyword-routed analytics layer).

The development is a shallow embedding of the Python sources:
  - ORM rows become Lean structures; the database is a record of row lists.
  - Python floats are modelled as rationals; datetimes as integer minutes
    since an arbitrary epoch (one day = 1440 minutes).
  - SQLAlchemy SELECT queries are read effects in a small state monad DBOp;
    row insertion and deletion (used by the seed script) are write effects.
  - Python exceptions are modelled with Except String; true division goes
    through sdiv, which raises (returns Except.error) on a zero divisor.
  - Python dicts keyed by strings or dates become insertion-ordered
    association lists; sets become deduplicated lists.
  - The random module is modelled as an abstract stream of naturals.
-/

/-! ## Generic helpers (Python primitives) -/

/-- Lowercasing as used by str.lower on the ASCII keyword queries. -/
def strLower (s : String) : String := String.mk (s.data.map Char.toLower)

/-- Python substring containment: needle in hay. -/
def strContains (hay needle : String) : Bool := decide (needle.data <:+: hay.data)

/-- Python truthiness of an optional integer (None and 0 are falsy). -/
def optIntTruthy : Option ℤ → Bool
  | none => false
  | some v => !(decide (v = 0))

/-- Python truthiness of an optional string (None and the empty string are falsy). -/
def optStrTruthy : Option String → Bool
  | none => false
  | some s => !(decide (s = ""))

/-- Python sum of a list of rationals (sum starts from 0, folds left). -/
def sumQ (l : List ℚ) : ℚ := l.foldl (· + ·) 0

/-- True division that raises on a zero divisor, as Python / does. -/
def sdiv (a b : ℚ) : Except String ℚ :=
  if b = 0 then Except.error "division by zero" else Except.ok (a / b)

/-- Python round(x, 2), modelled as exact rational rounding to cents
(the float tie-breaking of the banker rounding is abstracted). -/
def round2 (q : ℚ) : ℚ := ((round (q * 100) : ℤ) : ℚ) / 100

/-- Python round(x, 1). -/
def round1 (q : ℚ) : ℚ := ((round (q * 10) : ℤ) : ℚ) / 10

/-- Python int() on a nonnegative rational (truncation toward zero). -/
def pyInt (q : ℚ) : ℤ := q.num / (q.den : ℤ)

/-- Update of an insertion-ordered dict: d[k] = d.get(k, e) + v style updates
keep the insertion position of an existing key and append a fresh key. -/
def dictBump {K : Type} [DecidableEq K] (m : List (K × ℚ)) (k : K) (v : ℚ) : List (K × ℚ) :=
  if (m.find? (fun p => p.1 = k)).isSome
  then m.map (fun p => if p.1 = k then (p.1, p.2 + v) else p)
  else m ++ [(k, v)]

/-- Same update pattern for natural-number counters. -/
def dictCount {K : Type} [DecidableEq K] (m : List (K × ℕ)) (k : K) : List (K × ℕ) :=
  if (m.find? (fun p => p.1 = k)).isSome
  then m.map (fun p => if p.1 = k then (p.1, p.2 + 1) else p)
  else m ++ [(k, 1)]

/-- Python max(iterable, key=f): the first element with maximal key
(later elements replace the current best only on a strictly larger key). -/
def pymax {α β : Type} [LinearOrder β] (f : α → β) : List α → Option α
  | [] => none
  | x :: xs => some (xs.foldl (fun best y => if f best < f y then y else best) x)

/-- Membership of an element in a list modelling a Python set. -/
def setInsert {α : Type} [DecidableEq α] (l : List α) (a : α) : List α :=
  if a ∈ l then l else l ++ [a]

/-- Minutes per day; Python timedelta(days=d) is d * 1440 minutes. -/
def minutesPerDay : ℤ := 1440

/-- Day index of a timestamp; models strftime with a %Y-%m-%d key
(distinct days give distinct keys, in chronological order). -/
def dayKey (t : ℤ) : ℤ := Int.fdiv t minutesPerDay

/-- Hour of day of a timestamp (datetime.hour). -/
def hourOf (t : ℤ) : ℤ := Int.fdiv (Int.emod t minutesPerDay) 60

/-- Week bucket of a timestamp; models the strftime %Y-W%U key
(the calendar week partition is abstracted to seven-day buckets in order). -/
def weekKey (t : ℤ) : ℤ := Int.fdiv (dayKey t) 7

/-- Month bucket of a timestamp; models the strftime %Y-%m key
(the calendar month partition is abstracted to thirty-day buckets). -/
def monthKey (t : ℤ) : ℤ := Int.fdiv (dayKey t) 30

/-- Weekday name of a timestamp, models strftime %A with a fixed epoch anchor. -/
def weekdayName (t : ℤ) : String :=
  ["Monday", "Tuesday", "Wednesday", "Thursday", "Friday", "Saturday",
   "Sunday"].getD (Int.emod (dayKey t) 7).toNat "Monday"

/-- Number of whole days in a timedelta, as timedelta.days (floor). -/
def timedeltaDays (t : ℤ) : ℤ := Int.fdiv t minutesPerDay

/-! ## Data model (backend/database/models.py) -/

structure User where
  id : ℤ
  email : String
  name : String
  age : ℤ
  gender : String
  location : String
  registration_date : ℤ
  is_premium : Bool
deriving DecidableEq

structure Product where
  id : ℤ
  name : String
  category : String
  price : ℚ
  brand : String
  rating : ℚ
  stock_quantity : ℤ
  description : String
deriving DecidableEq

structure UserSession where
  id : ℤ
  user_id : ℤ
  session_start : ℤ
  session_end : ℤ
  session_duration_minutes : ℚ
  pages_viewed : ℤ
  device_type : String
  browser : String
deriving DecidableEq

structure PageView where
  id : ℤ
  session_id : ℤ
  product_id : Option ℤ
  page_type : String
  timestamp : ℤ
  time_spent_seconds : ℚ
deriving DecidableEq

structure Purchase where
  id : ℤ
  user_id : ℤ
  product_id : ℤ
  quantity : ℤ
  total_amount : ℚ
  purchase_date : ℤ
  payment_method : String
  discount_applied : ℚ
deriving DecidableEq

/-- The rating column is a plain Integer column: the schema itself imposes
no range constraint, so the field is an unrestricted integer here. -/
structure Review where
  id : ℤ
  user_id : ℤ
  product_id : ℤ
  rating : ℤ
  review_text : String
  review_date : ℤ
  helpful_votes : ℤ
deriving DecidableEq

/-- A database state: one list of rows per table, in insertion order. -/
structure DB where
  users : List User
  products : List Product
  user_sessions : List UserSession
  page_views : List PageView
  purchases : List Purchase
  reviews : List Review
deriving DecidableEq

def emptyDB : DB := ⟨[], [], [], [], [], []⟩

/-! ## Database operations

A DBOp is a stateful operation on the database. SELECT queries read the
state and leave it unchanged; the insertion and deletion primitives (used
only by the seed script) change it, so that preservation of the state by
the query layer is a meaningful statement. -/

def DBOp (α : Type) : Type := DB → α × DB

instance : Monad DBOp where
  pure a := fun db => (a, db)
  bind m f := fun db => let r := m db; f r.1 r.2

def selectUsers : DBOp (List User) := fun db => (db.users, db)

def selectUsersWhere (p : User → Bool) : DBOp (List User) :=
  fun db => (db.users.filter p, db)

def selectProducts : DBOp (List Product) := fun db => (db.products, db)

def selectProductsWhere (p : Product → Bool) : DBOp (List Product) :=
  fun db => (db.products.filter p, db)

def selectSessionsWhere (p : UserSession → Bool) : DBOp (List UserSession) :=
  fun db => (db.user_sessions.filter p, db)

def selectPageViewsWhere (p : PageView → Bool) : DBOp (List PageView) :=
  fun db => (db.page_views.filter p, db)

def selectPurchasesWhere (p : Purchase → Bool) : DBOp (List Purchase) :=
  fun db => (db.purchases.filter p, db)

def selectReviewsWhere (p : Review → Bool) : DBOp (List Review) :=
  fun db => (db.reviews.filter p, db)

def selectSessions : DBOp (List UserSession) := fun db => (db.user_sessions, db)

def selectPageViews : DBOp (List PageView) := fun db => (db.page_views, db)

def selectPurchases : DBOp (List Purchase) := fun db => (db.purchases, db)

def selectReviews : DBOp (List Review) := fun db => (db.reviews, db)

def countUsers : DBOp ℕ := fun db => (db.users.length, db)

/-- Replace the whole contents of the database (the seed script first
deletes every row of every table and then inserts the generated rows). -/
def replaceAll (users : List User) (products : List Product)
    (sessions : List UserSession) (views : List PageView)
    (purchases : List Purchase) (reviews : List Review) : DBOp Unit :=
  fun _ => ((), ⟨users, products, sessions, views, purchases, reviews⟩)

/-! ## Keyword router (backend/mcp_server/agents/base_agent.py) -/

/-- AgentCapability.CAPABILITY_KEYWORDS: the insertion-ordered dict of
capability names to routing keywords. -/
def CAPABILITY_KEYWORDS : List (String × List String) :=
  [("user_behavior",
    ["user", "customer", "behavior", "activity", "engagement",
     "session", "page view", "interaction", "browsing"]),
   ("financial_analysis",
    ["revenue", "profit", "financial", "earnings", "income", "sales",
     "money", "cost", "expense", "margin", "roi", "financial report"]),
   ("product_analytics",
    ["product", "conversion", "performance", "analytics", "metrics"]),
   ("session_analysis",
    ["session", "duration", "device", "browser", "time spent"]),
   ("purchase_patterns",
    ["purchase", "buy", "order", "transaction", "payment"]),
   ("revenue_reporting",
    ["revenue", "sales report", "income", "earnings", "financial performance"]),
   ("profit_analysis",
    ["profit", "margin", "profitability", "cost analysis", "roi"])]

/-- One iteration of the routing loop body: scan the keywords of one
capability, stop at the first keyword contained in the query (the break),
and append the capability if it is not yet recorded. -/
def routeStep (query_lower : String) (matched : List String)
    (ck : String × List String) : List String :=
  match ck.2.find? (fun kw => strContains query_lower kw) with
  | some _ => if ck.1 ∈ matched then matched else matched ++ [ck.1]
  | none => matched

/-- AgentCapability.match_capability. -/
def match_capability (query : String) : List String :=
  let query_lower := strLower query
  CAPABILITY_KEYWORDS.foldl (routeStep query_lower) []

/-- A registered agent as seen by the coordinator: its id and the
capability list returned by get_capabilities. -/
structure AgentInfo where
  agent_id : String
  capabilities : List String
deriving DecidableEq

/-- AgentCoordinator.route_query over the registration-ordered agent list:
keep the agents sharing a capability with the matched set, and fall back
to every registered agent when none matches. -/
def route_query (agents : List AgentInfo) (query : String) : List AgentInfo :=
  let capabilities_needed := match_capability query
  let suitable_agents :=
    agents.filter (fun a => capabilities_needed.any (fun c => decide (c ∈ a.capabilities)))
  if suitable_agents.isEmpty then agents else suitable_agents

/-! ## Theorems for the keyword router -/

theorem routeStep_filter (q : String) (l : List (String × List String))
    (acc : List String)
    (hd : ∀ p ∈ l, p.1 ∉ acc)
    (hn : (l.map Prod.fst).Nodup) :
    l.foldl (routeStep q) acc
      = acc ++ (l.filter (fun ck => ck.2.any (fun kw => strContains q kw))).map Prod.fst := by
  induction l generalizing acc with
  | nil => simp
  | cons p t ih =>
    simp only [List.foldl_cons, List.filter_cons]
    have hn' : (t.map Prod.fst).Nodup := (List.map_cons Prod.fst p t ▸ hn).of_cons
    have hpt : p.1 ∉ t.map Prod.fst := by
      have := List.map_cons Prod.fst p t ▸ hn
      exact (List.nodup_cons.mp this).1
    cases hfind : p.2.find? (fun kw => strContains q kw) with
    | none =>
      have hany : (p.2.any (fun kw => strContains q kw)) = false := by
        rw [List.any_eq_false]
        intro x hx
        simpa using List.find?_eq_none.mp hfind x hx
      rw [routeStep, hfind]
      simp only [hany]
      exact ih acc (fun r hr => hd r (List.mem_cons_of_mem p hr)) hn'
    | some kw =>
      have hany : (p.2.any (fun kw => strContains q kw)) = true :=
        List.any_eq_true.mpr ⟨kw, List.mem_of_find?_eq_some hfind, List.find?_some hfind⟩
      have hnotmem : p.1 ∉ acc := hd p (List.mem_cons_self p t)
      rw [routeStep, hfind]
      simp only [hnotmem, if_false, hany, if_true]
      have hd' : ∀ r ∈ t, r.1 ∉ acc ++ [p.1] := by
        intro r hr
        simp only [List.mem_append, List.mem_singleton]
        rintro (h1 | h2)
        · exact hd r (List.mem_cons_of_mem p hr) h1
        · exact hpt (h2 ▸ List.mem_map_of_mem Prod.fst hr)
      rw [ih (acc ++ [p.1]) hd' hn']
      simp

/-- C1: match_capability returns exactly the capabilities having at least
one keyword contained in the lowercased query, each capability at most
once (the result has no duplicates), in the fixed order of the
CAPABILITY_KEYWORDS table; the first matching keyword of a capability
decides its inclusion. -/
theorem match_capability_correct (query : String) :
    match_capability query
      = (CAPABILITY_KEYWORDS.filter
          (fun ck => ck.2.any (fun kw => strContains (strLower query) kw))).map Prod.fst
    ∧ (match_capability query).Nodup
    ∧ ∀ c, (c ∈ match_capability query ↔
        ∃ kws, (c, kws) ∈ CAPABILITY_KEYWORDS ∧ kws.any
          (fun kw => strContains (strLower query) kw)) := by
  have hnodup : (CAPABILITY_KEYWORDS.map Prod.fst).Nodup := by decide
  have heq : match_capability query
      = (CAPABILITY_KEYWORDS.filter
          (fun ck => ck.2.any (fun kw => strContains (strLower query) kw))).map Prod.fst := by
    have := routeStep_filter (strLower query) CAPABILITY_KEYWORDS []
      (by intro p _ h; cases h) hnodup
    simpa [match_capability] using this
  refine ⟨heq, ?_, ?_⟩
  · rw [heq]
    have hsub : ((CAPABILITY_KEYWORDS.filter
        (fun ck => ck.2.any (fun kw => strContains (strLower query) kw))).map
          Prod.fst).Sublist (CAPABILITY_KEYWORDS.map Prod.fst) :=
      List.Sublist.map Prod.fst (List.filter_sublist CAPABILITY_KEYWORDS)
    exact hsub.nodup hnodup
  · intro c
    rw [heq]
    constructor
    · intro hc
      rcases List.mem_map.mp hc with ⟨ck, hck, hfst⟩
      rcases List.mem_filter.mp hck with ⟨hmem, hpred⟩
      refine ⟨ck.2, ?_, hpred⟩
      have : ck = (c, ck.2) := by
        cases ck; simp at hfst; simp [hfst]
      rwa [this] at hmem
    · rintro ⟨kws, hmem, hpred⟩
      exact List.mem_map.mpr ⟨(c, kws), List.mem_filter.mpr ⟨hmem, hpred⟩, rfl⟩

/-- C9: when the matched capabilities are disjoint from the capabilities
of every registered agent (in particular when nothing matches),
route_query falls back to the full agent list; with at least one agent
registered it never returns the empty list. -/
theorem route_query_fallback (agents : List AgentInfo) (query : String)
    (hdisj : ∀ a ∈ agents, ∀ c ∈ match_capability query, c ∉ a.capabilities) :
    route_query agents query = agents
    ∧ (agents ≠ [] → route_query agents query ≠ []) := by
  have hfilter : agents.filter
      (fun a => (match_capability query).any (fun c => decide (c ∈ a.capabilities))) = [] := by
    rw [List.filter_eq_nil_iff]
    intro a ha
    simp only [List.any_eq_true, not_exists, Bool.not_eq_true]
    push_neg
    intro c hc
    simpa using hdisj a ha c hc
  constructor
  · rw [route_query]
    simp [hfilter]
  · intro hne
    rw [route_query]
    simp [hfilter, hne]

/-- Closed instance of the route_query fallback, at a query matching no
keyword and a single registered agent. -/
theorem route_query_fallback_witness :
    route_query [⟨"user_behavior_agent", ["user_behavior"]⟩] "zzz"
        = [⟨"user_behavior_agent", ["user_behavior"]⟩]
    ∧ route_query [⟨"user_behavior_agent", ["user_behavior"]⟩] "zzz" ≠ [] := by
  have h := route_query_fallback [⟨"user_behavior_agent", ["user_behavior"]⟩] "zzz"
    (by decide)
  exact ⟨h.1, h.2 (by decide)⟩

/-! ## CRUD layer (backend/api/crud.py) -/

def crud_get_users (skip limit : ℕ) : DBOp (List User) := do
  let rows ← selectUsers
  pure ((rows.drop skip).take limit)

def crud_get_user (user_id : ℤ) : DBOp (Option User) := do
  let rows ← selectUsers
  pure (rows.find? (fun u => decide (u.id = user_id)))

def crud_get_products (skip limit : ℕ) : DBOp (List Product) := do
  let rows ← selectProducts
  pure ((rows.drop skip).take limit)

def crud_get_product (product_id : ℤ) : DBOp (Option Product) := do
  let rows ← selectProducts
  pure (rows.find? (fun p => decide (p.id = product_id)))

/-- get_user_sessions: the optional user filter is applied only when the
value is truthy (if user_id:), so None and 0 both leave the query
unfiltered. -/
def crud_get_user_sessions (user_id : Option ℤ) (skip limit : ℕ) :
    DBOp (List UserSession) := do
  let rows ← selectSessionsWhere (fun s =>
    if optIntTruthy user_id then decide (s.user_id = user_id.getD 0) else true)
  pure ((rows.drop skip).take limit)

def crud_get_purchases (user_id : Option ℤ) (skip limit : ℕ) :
    DBOp (List Purchase) := do
  let rows ← selectPurchasesWhere (fun p =>
    if optIntTruthy user_id then decide (p.user_id = user_id.getD 0) else true)
  pure ((rows.drop skip).take limit)

def crud_get_reviews (product_id : Option ℤ) (skip limit : ℕ) :
    DBOp (List Review) := do
  let rows ← selectReviewsWhere (fun r =>
    if optIntTruthy product_id then decide (r.product_id = product_id.getD 0) else true)
  pure ((rows.drop skip).take limit)

def crud_get_page_views (session_id : Option ℤ) (skip limit : ℕ) :
    DBOp (List PageView) := do
  let rows ← selectPageViewsWhere (fun pv =>
    if optIntTruthy session_id then decide (pv.session_id = session_id.getD 0) else true)
  pure ((rows.drop skip).take limit)

structure UserBehaviorSummary where
  user_id : ℤ
  user_name : String
  total_sessions : ℕ
  total_purchases : ℕ
  total_spent : ℚ
  avg_session_duration : ℚ
  favorite_category : String
  last_activity : ℤ
deriving DecidableEq

/-- get_user_behavior_summary: None exactly when the user row is missing;
otherwise SQL aggregates over the user rows (avg is NULL, hence 0, on an
empty set; the favourite category is the group with the largest purchase
count, ties resolved to the first encountered group as the SQL ordering
leaves them unspecified). -/
def crud_get_user_behavior_summary (user_id : ℤ) :
    DBOp (Option UserBehaviorSummary) := do
  let us ← selectUsers
  match us.find? (fun u => decide (u.id = user_id)) with
  | none => pure none
  | some user => do
    let sessions ← selectSessionsWhere (fun s => decide (s.user_id = user_id))
    let purchases ← selectPurchasesWhere (fun p => decide (p.user_id = user_id))
    let products ← selectProducts
    let avg_duration : ℚ :=
      if sessions.isEmpty then 0
      else sumQ (sessions.map (fun s => s.session_duration_minutes)) / (sessions.length : ℚ)
    let category_counts := purchases.foldl (fun acc p =>
      match products.find? (fun prod => decide (prod.id = p.product_id)) with
      | some prod => dictCount acc prod.category
      | none => acc) []
    let favorite := pymax (fun kv : String × ℕ => kv.2) category_counts
    let last_session := pymax (fun s : UserSession => s.session_start) sessions
    pure (some
      { user_id := user.id
        user_name := user.name
        total_sessions := sessions.length
        total_purchases := purchases.length
        total_spent := sumQ (purchases.map (fun p => p.total_amount))
        avg_session_duration := avg_duration
        favorite_category := match favorite with
          | some kv => kv.1
          | none => "None"
        last_activity := match last_session with
          | some s => s.session_start
          | none => user.registration_date })

structure ProductAnalytics where
  product_id : ℤ
  product_name : String
  total_views : ℕ
  total_purchases : ℕ
  total_revenue : ℚ
  avg_rating : ℚ
  conversion_rate : ℚ
deriving DecidableEq

/-- Pure part of get_product_analytics: the row lists are already filtered
to the given product id; None exactly when the product row is missing. -/
def productAnalyticsCore (prods : List Product) (views : List PageView)
    (purchases : List Purchase) (reviews : List Review) (product_id : ℤ) :
    Option ProductAnalytics :=
  match prods.find? (fun p => decide (p.id = product_id)) with
  | none => none
  | some product =>
    let total_views := views.length
    let total_purchases := purchases.length
    let avg_rating : ℚ :=
      if reviews.isEmpty then 0
      else sumQ (reviews.map (fun r => (r.rating : ℚ))) / (reviews.length : ℚ)
    let conversion_rate : ℚ :=
      if 0 < total_views then (total_purchases : ℚ) / (total_views : ℚ) * 100 else 0
    some
      { product_id := product.id
        product_name := product.name
        total_views := total_views
        total_purchases := total_purchases
        total_revenue := sumQ (purchases.map (fun p => p.total_amount))
        avg_rating := avg_rating
        conversion_rate := round2 conversion_rate }

def crud_get_product_analytics (product_id : ℤ) : DBOp (Option ProductAnalytics) := do
  let prods ← selectProducts
  let views ← selectPageViewsWhere (fun pv => decide (pv.product_id = some product_id))
  let purchases ← selectPurchasesWhere (fun p => decide (p.product_id = product_id))
  let reviews ← selectReviewsWhere (fun r => decide (r.product_id = product_id))
  pure (productAnalyticsCore prods views purchases reviews product_id)

/-- The analytics records built for every product row, in table order. -/
def topProductsAnalytics (prods : List Product) (views : List PageView)
    (purchases : List Purchase) (reviews : List Review) : List ProductAnalytics :=
  prods.filterMap (fun p => productAnalyticsCore prods
    (views.filter (fun pv => decide (pv.product_id = some p.id)))
    (purchases.filter (fun q => decide (q.product_id = p.id)))
    (reviews.filter (fun r => decide (r.product_id = p.id))) p.id)

/-- Comparison used by sorted(key=total_revenue, reverse=True): a stable
sort that puts larger revenues first. -/
def revGE (a b : ProductAnalytics) : Bool := decide (b.total_revenue ≤ a.total_revenue)

def crud_get_top_products_by_revenue (limit : ℕ) : DBOp (List ProductAnalytics) := do
  let prods ← selectProducts
  let views ← selectPageViews
  let purchases ← selectPurchases
  let reviews ← selectReviews
  pure (((topProductsAnalytics prods views purchases reviews).mergeSort revGE).take limit)

structure DeviceStat where
  session_count : ℕ
  avg_duration : ℚ
deriving DecidableEq

def crud_get_user_activity_by_device : DBOp (List (String × DeviceStat)) := do
  let sessions ← selectSessions
  let groups := sessions.foldl (fun acc s =>
    match acc.find? (fun kv => decide (kv.1 = s.device_type)) with
    | some _ => acc.map (fun kv =>
        if kv.1 = s.device_type then (kv.1, (kv.2.1 + 1, kv.2.2 + s.session_duration_minutes))
        else kv)
    | none => acc ++ [(s.device_type, (1, s.session_duration_minutes))])
    ([] : List (String × ℕ × ℚ))
  pure (groups.map (fun kv =>
    (kv.1, { session_count := kv.2.1
             avg_duration := if kv.2.1 = 0 then 0 else kv.2.2 / (kv.2.1 : ℚ) })))

/-! ## REST endpoints (backend/api/main.py) -/

inductive HttpResponse (α : Type) where
  | ok : α → HttpResponse α
  | error : ℕ → String → HttpResponse α
deriving DecidableEq

def ep_get_users (skip limit : ℕ) : DBOp (HttpResponse (List User)) := do
  let rows ← crud_get_users skip limit
  pure (HttpResponse.ok rows)

def ep_get_user (user_id : ℤ) : DBOp (HttpResponse User) := do
  let u ← crud_get_user user_id
  match u with
  | none => pure (HttpResponse.error 404 "User not found")
  | some user => pure (HttpResponse.ok user)

def ep_get_user_behavior (user_id : ℤ) : DBOp (HttpResponse UserBehaviorSummary) := do
  let s ← crud_get_user_behavior_summary user_id
  match s with
  | none => pure (HttpResponse.error 404 "User not found")
  | some summary => pure (HttpResponse.ok summary)

def ep_get_products (skip limit : ℕ) : DBOp (HttpResponse (List Product)) := do
  let rows ← crud_get_products skip limit
  pure (HttpResponse.ok rows)

def ep_get_product (product_id : ℤ) : DBOp (HttpResponse Product) := do
  let p ← crud_get_product product_id
  match p with
  | none => pure (HttpResponse.error 404 "Product not found")
  | some product => pure (HttpResponse.ok product)

def ep_get_product_analytics (product_id : ℤ) : DBOp (HttpResponse ProductAnalytics) := do
  let a ← crud_get_product_analytics product_id
  match a with
  | none => pure (HttpResponse.error 404 "Product not found")
  | some analytics => pure (HttpResponse.ok analytics)

def ep_get_user_sessions (user_id : Option ℤ) (skip limit : ℕ) :
    DBOp (HttpResponse (List UserSession)) := do
  let rows ← crud_get_user_sessions user_id skip limit
  pure (HttpResponse.ok rows)

def ep_get_purchases (user_id : Option ℤ) (skip limit : ℕ) :
    DBOp (HttpResponse (List Purchase)) := do
  let rows ← crud_get_purchases user_id skip limit
  pure (HttpResponse.ok rows)

def ep_get_reviews (product_id : Option ℤ) (skip limit : ℕ) :
    DBOp (HttpResponse (List Review)) := do
  let rows ← crud_get_reviews product_id skip limit
  pure (HttpResponse.ok rows)

def ep_get_page_views (session_id : Option ℤ) (skip limit : ℕ) :
    DBOp (HttpResponse (List PageView)) := do
  let rows ← crud_get_page_views session_id skip limit
  pure (HttpResponse.ok rows)

def ep_get_top_products (limit : ℕ) : DBOp (HttpResponse (List ProductAnalytics)) := do
  let rows ← crud_get_top_products_by_revenue limit
  pure (HttpResponse.ok rows)

def ep_get_device_usage : DBOp (HttpResponse (List (String × DeviceStat))) := do
  let rows ← crud_get_user_activity_by_device
  pure (HttpResponse.ok rows)


/-! ## Theorems for the REST layer -/

/-- C10: a filter value of 0 is falsy, so passing 0 for the optional
filter (user_id for sessions and purchases, product_id for reviews,
session_id for page views) returns the same result as passing no filter
at all, on every database state and pagination window. -/
theorem zero_filter_ignored (db : DB) (skip limit : ℕ) :
    crud_get_user_sessions (some 0) skip limit db
      = crud_get_user_sessions none skip limit db
    ∧ crud_get_purchases (some 0) skip limit db
      = crud_get_purchases none skip limit db
    ∧ crud_get_reviews (some 0) skip limit db
      = crud_get_reviews none skip limit db
    ∧ crud_get_page_views (some 0) skip limit db
      = crud_get_page_views none skip limit db :=
  ⟨rfl, rfl, rfl, rfl⟩

theorem DBOp_bind {α β : Type} (m : DBOp α) (f : α → DBOp β) (db : DB) :
    (m >>= f) db = f (m db).1 (m db).2 := rfl

theorem DBOp_pure {α : Type} (a : α) (db : DB) : (pure a : DBOp α) db = (a, db) := rfl

theorem ep_get_user_none (db : DB) (qid : ℤ)
    (h : db.users.find? (fun u => decide (u.id = qid)) = none) :
    (ep_get_user qid db).1 = HttpResponse.error 404 "User not found" := by
  simp only [ep_get_user, crud_get_user, selectUsers, DBOp_bind, DBOp_pure]
  rw [h]
  rfl

theorem ep_get_user_some (db : DB) (qid : ℤ) (u : User)
    (h : db.users.find? (fun v => decide (v.id = qid)) = some u) :
    (ep_get_user qid db).1 = HttpResponse.ok u := by
  simp only [ep_get_user, crud_get_user, selectUsers, DBOp_bind, DBOp_pure]
  rw [h]
  rfl

theorem ep_get_user_behavior_none (db : DB) (qid : ℤ)
    (h : db.users.find? (fun u => decide (u.id = qid)) = none) :
    (ep_get_user_behavior qid db).1 = HttpResponse.error 404 "User not found" := by
  simp only [ep_get_user_behavior, crud_get_user_behavior_summary, selectUsers,
    selectSessionsWhere, selectPurchasesWhere, selectProducts, DBOp_bind, DBOp_pure]
  rw [h]
  rfl

theorem ep_get_user_behavior_some (db : DB) (qid : ℤ) (u : User)
    (h : db.users.find? (fun v => decide (v.id = qid)) = some u) :
    ∃ s, (ep_get_user_behavior qid db).1 = HttpResponse.ok s := by
  simp only [ep_get_user_behavior, crud_get_user_behavior_summary, selectUsers,
    selectSessionsWhere, selectPurchasesWhere, selectProducts, DBOp_bind, DBOp_pure]
  rw [h]
  exact ⟨_, rfl⟩

theorem ep_get_product_none (db : DB) (qid : ℤ)
    (h : db.products.find? (fun p => decide (p.id = qid)) = none) :
    (ep_get_product qid db).1 = HttpResponse.error 404 "Product not found" := by
  simp only [ep_get_product, crud_get_product, selectProducts, DBOp_bind, DBOp_pure]
  rw [h]
  rfl

theorem ep_get_product_some (db : DB) (qid : ℤ) (p : Product)
    (h : db.products.find? (fun q => decide (q.id = qid)) = some p) :
    (ep_get_product qid db).1 = HttpResponse.ok p := by
  simp only [ep_get_product, crud_get_product, selectProducts, DBOp_bind, DBOp_pure]
  rw [h]
  rfl

theorem ep_get_product_analytics_none (db : DB) (qid : ℤ)
    (h : db.products.find? (fun p => decide (p.id = qid)) = none) :
    (ep_get_product_analytics qid db).1 = HttpResponse.error 404 "Product not found" := by
  simp only [ep_get_product_analytics, crud_get_product_analytics, selectProducts,
    selectPageViewsWhere, selectPurchasesWhere, selectReviewsWhere, DBOp_bind, DBOp_pure,
    productAnalyticsCore]
  rw [h]
  rfl

theorem ep_get_product_analytics_some (db : DB) (qid : ℤ) (p : Product)
    (h : db.products.find? (fun q => decide (q.id = qid)) = some p) :
    ∃ a, (ep_get_product_analytics qid db).1 = HttpResponse.ok a := by
  simp only [ep_get_product_analytics, crud_get_product_analytics, selectProducts,
    selectPageViewsWhere, selectPurchasesWhere, selectReviewsWhere, DBOp_bind, DBOp_pure,
    productAnalyticsCore]
  rw [h]
  exact ⟨_, rfl⟩

theorem find?_none_iff_no_row {α : Type} (l : List α) (f : α → ℤ) (qid : ℤ) :
    l.find? (fun x => decide (f x = qid)) = none ↔ ∀ x ∈ l, f x ≠ qid := by
  rw [List.find?_eq_none]
  constructor
  · intro h x hx
    simpa using h x hx
  · intro h x hx
    simpa using h x hx

/-- C4: the four detail endpoints respond 404 exactly when no row with
the requested primary id exists, and respond 200 with the record
(respectively the computed summary) whenever such a row exists. -/
theorem detail_endpoints_404 (db : DB) (qid : ℤ) :
    ((ep_get_user qid db).1 = HttpResponse.error 404 "User not found"
        ↔ ∀ u ∈ db.users, u.id ≠ qid)
    ∧ ((∃ u ∈ db.users, u.id = qid) → ∃ u, (ep_get_user qid db).1 = HttpResponse.ok u
        ∧ u ∈ db.users ∧ u.id = qid)
    ∧ ((ep_get_user_behavior qid db).1 = HttpResponse.error 404 "User not found"
        ↔ ∀ u ∈ db.users, u.id ≠ qid)
    ∧ ((∃ u ∈ db.users, u.id = qid) →
        ∃ s, (ep_get_user_behavior qid db).1 = HttpResponse.ok s)
    ∧ ((ep_get_product qid db).1 = HttpResponse.error 404 "Product not found"
        ↔ ∀ p ∈ db.products, p.id ≠ qid)
    ∧ ((∃ p ∈ db.products, p.id = qid) → ∃ p, (ep_get_product qid db).1 = HttpResponse.ok p
        ∧ p ∈ db.products ∧ p.id = qid)
    ∧ ((ep_get_product_analytics qid db).1 = HttpResponse.error 404 "Product not found"
        ↔ ∀ p ∈ db.products, p.id ≠ qid)
    ∧ ((∃ p ∈ db.products, p.id = qid) →
        ∃ a, (ep_get_product_analytics qid db).1 = HttpResponse.ok a) := by
  have hexu : (∃ u ∈ db.users, u.id = qid) →
      ∃ u, db.users.find? (fun v => decide (v.id = qid)) = some u
        ∧ u ∈ db.users ∧ u.id = qid := by
    rintro ⟨u, hu, hid⟩
    cases hf : db.users.find? (fun v => decide (v.id = qid)) with
    | none =>
      exact absurd hid ((find?_none_iff_no_row db.users (fun v => v.id) qid).mp hf u hu)
    | some v =>
      exact ⟨v, rfl, List.mem_of_find?_eq_some hf, by simpa using List.find?_some hf⟩
  have hexp : (∃ p ∈ db.products, p.id = qid) →
      ∃ p, db.products.find? (fun q => decide (q.id = qid)) = some p
        ∧ p ∈ db.products ∧ p.id = qid := by
    rintro ⟨p, hp, hid⟩
    cases hf : db.products.find? (fun q => decide (q.id = qid)) with
    | none =>
      exact absurd hid ((find?_none_iff_no_row db.products (fun q => q.id) qid).mp hf p hp)
    | some v =>
      exact ⟨v, rfl, List.mem_of_find?_eq_some hf, by simpa using List.find?_some hf⟩
  refine ⟨?_, ?_, ?_, ?_, ?_, ?_, ?_, ?_⟩
  · constructor
    · intro h
      cases hf : db.users.find? (fun v => decide (v.id = qid)) with
      | none => exact (find?_none_iff_no_row db.users (fun v => v.id) qid).mp hf
      | some u => rw [ep_get_user_some db qid u hf] at h; cases h
    · intro h
      exact ep_get_user_none db qid
        ((find?_none_iff_no_row db.users (fun v => v.id) qid).mpr h)
  · intro h
    rcases hexu h with ⟨u, hf, hmem, hid⟩
    exact ⟨u, ep_get_user_some db qid u hf, hmem, hid⟩
  · constructor
    · intro h
      cases hf : db.users.find? (fun v => decide (v.id = qid)) with
      | none => exact (find?_none_iff_no_row db.users (fun v => v.id) qid).mp hf
      | some u =>
        rcases ep_get_user_behavior_some db qid u hf with ⟨s, hs⟩
        rw [hs] at h; cases h
    · intro h
      exact ep_get_user_behavior_none db qid
        ((find?_none_iff_no_row db.users (fun v => v.id) qid).mpr h)
  · intro h
    rcases hexu h with ⟨u, hf, _, _⟩
    exact ep_get_user_behavior_some db qid u hf
  · constructor
    · intro h
      cases hf : db.products.find? (fun q => decide (q.id = qid)) with
      | none => exact (find?_none_iff_no_row db.products (fun q => q.id) qid).mp hf
      | some p => rw [ep_get_product_some db qid p hf] at h; cases h
    · intro h
      exact ep_get_product_none db qid
        ((find?_none_iff_no_row db.products (fun q => q.id) qid).mpr h)
  · intro h
    rcases hexp h with ⟨p, hf, hmem, hid⟩
    exact ⟨p, ep_get_product_some db qid p hf, hmem, hid⟩
  · constructor
    · intro h
      cases hf : db.products.find? (fun q => decide (q.id = qid)) with
      | none => exact (find?_none_iff_no_row db.products (fun q => q.id) qid).mp hf
      | some p =>
        rcases ep_get_product_analytics_some db qid p hf with ⟨a, ha⟩
        rw [ha] at h; cases h
    · intro h
      exact ep_get_product_analytics_none db qid
        ((find?_none_iff_no_row db.products (fun q => q.id) qid).mpr h)
  · intro h
    rcases hexp h with ⟨p, hf, _, _⟩
    exact ep_get_product_analytics_some db qid p hf


theorem revGE_trans (a b c : ProductAnalytics) :
    revGE a b = true → revGE b c = true → revGE a c = true := by
  simp only [revGE, decide_eq_true_eq]
  exact fun h1 h2 => le_trans h2 h1

theorem revGE_total (a b : ProductAnalytics) : (revGE a b || revGE b a) = true := by
  simp only [revGE, Bool.or_eq_true, decide_eq_true_eq]
  exact le_total b.total_revenue a.total_revenue

/-- C6: the top-products query returns the limit-long prefix of the
analytics records sorted by non-increasing total revenue: at most limit
records, pairwise sorted, a permutation of the full record list once the
dropped suffix is appended, and every returned record has total revenue
at least that of every record not returned. -/
theorem top_products_spec (db : DB) (limit : ℕ) :
    (crud_get_top_products_by_revenue limit db).1
      = ((topProductsAnalytics db.products db.page_views db.purchases
          db.reviews).mergeSort revGE).take limit
    ∧ (crud_get_top_products_by_revenue limit db).1.length ≤ limit
    ∧ List.Pairwise (fun a b => b.total_revenue ≤ a.total_revenue)
        (crud_get_top_products_by_revenue limit db).1
    ∧ ((crud_get_top_products_by_revenue limit db).1
        ++ ((topProductsAnalytics db.products db.page_views db.purchases
            db.reviews).mergeSort revGE).drop limit).Perm
        (topProductsAnalytics db.products db.page_views db.purchases db.reviews)
    ∧ ∀ a ∈ (crud_get_top_products_by_revenue limit db).1,
        ∀ b ∈ ((topProductsAnalytics db.products db.page_views db.purchases
            db.reviews).mergeSort revGE).drop limit,
          b.total_revenue ≤ a.total_revenue := by
  have heq : (crud_get_top_products_by_revenue limit db).1
      = ((topProductsAnalytics db.products db.page_views db.purchases
          db.reviews).mergeSort revGE).take limit := rfl
  have hsorted : List.Pairwise (fun a b => b.total_revenue ≤ a.total_revenue)
      ((topProductsAnalytics db.products db.page_views db.purchases
        db.reviews).mergeSort revGE) := by
    have := List.sorted_mergeSort revGE_trans revGE_total
      (topProductsAnalytics db.products db.page_views db.purchases db.reviews)
    exact this.imp (fun h => by simpa [revGE] using h)
  have hsplit := List.take_append_drop limit
    ((topProductsAnalytics db.products db.page_views db.purchases db.reviews).mergeSort revGE)
  have hpw := hsplit ▸ hsorted
  have hparts := List.pairwise_append.mp hpw
  refine ⟨heq, ?_, ?_, ?_, ?_⟩
  · rw [heq]
    exact List.length_take_le limit _
  · rw [heq]
    exact hparts.1
  · rw [heq, hsplit]
    exact List.mergeSort_perm _ revGE
  · rw [heq]
    exact hparts.2.2

/-- Closed instance of the top-products specification at a one-user,
two-product database and limit 1. -/
theorem top_products_spec_witness :
    (crud_get_top_products_by_revenue 1
      ⟨[], [⟨1, "Product 1", "Books", 5, "Sony", 4, 3, "d"⟩,
            ⟨2, "Product 2", "Toys", 7, "LG", 3, 2, "d"⟩], [], [], [], []⟩).1.length ≤ 1 :=
  (top_products_spec ⟨[], [⟨1, "Product 1", "Books", 5, "Sony", 4, 3, "d"⟩,
      ⟨2, "Product 2", "Toys", 7, "LG", 3, 2, "d"⟩], [], [], [], []⟩ 1).2.1

/-- Closed instance of the 404 specification: a missing id gives 404 on
all four detail endpoints, an existing id gives 200. -/
theorem detail_endpoints_404_witness :
    ((ep_get_user 7 ⟨[⟨1, "user1@example.com", "Alice Johnson 1", 30, "F", "Chicago", 0,
        false⟩], [], [], [], [], []⟩).1 = HttpResponse.error 404 "User not found")
    ∧ ∃ u, (ep_get_user 1 ⟨[⟨1, "user1@example.com", "Alice Johnson 1", 30, "F", "Chicago", 0,
        false⟩], [], [], [], [], []⟩).1 = HttpResponse.ok u
        ∧ u ∈ [(⟨1, "user1@example.com", "Alice Johnson 1", 30, "F", "Chicago", 0,
            false⟩ : User)] ∧ u.id = 1 := by
  constructor
  · exact (detail_endpoints_404 ⟨[⟨1, "user1@example.com", "Alice Johnson 1", 30, "F",
      "Chicago", 0, false⟩], [], [], [], [], []⟩ 7).1.mpr (by decide)
  · exact (detail_endpoints_404 ⟨[⟨1, "user1@example.com", "Alice Johnson 1", 30, "F",
      "Chicago", 0, false⟩], [], [], [], [], []⟩ 1).2.1
      ⟨⟨1, "user1@example.com", "Alice Johnson 1", 30, "F", "Chicago", 0, false⟩,
        List.mem_singleton.mpr rfl, rfl⟩


/-! ## Financial agent (backend/mcp_server/agents/financial_agent.py)

Each tool reads its tables up front (the per-row lookups of the source are
pure reads of an unchanged session, so they are equal to lookups in lists
read once) and runs a pure core in the Except monad, where every true
division is an sdiv. Python float values are exact rationals and the
echoed constant cost-assumption dict is not repeated in the records. -/

def cost_of_goods_sold_percentage : ℚ := 60 / 100

def operational_cost_percentage : ℚ := 25 / 100

def customer_acquisition_cost : ℚ := 15

def return_rate_assumption : ℚ := 5 / 100

/-- The untyped parameter dict, modelled one field per key used by the
agents; cohort_period holds a string in the financial cohort tool and an
integer in the retention tool, so it is split into two fields. -/
structure Params where
  time_period : Option ℤ
  granularity : Option String
  analysis_type : Option String
  calculation_method : Option String
  forecast_period : Option ℤ
  cohort_period : Option String
  user_id : Option ℤ
  session_id : Option ℤ
  days_back : Option ℤ
  include_details : Option Bool
  device_filter : Option String
  segmentation_criteria : Option String
  min_activity_level : Option ℤ
  metric_type : Option String
  retention_cohort_period : Option ℤ
  retention_metric : Option String
  page_type : Option String
  interaction_metric : Option String
  device_comparison : Option String
  behavior_metric : Option String
deriving DecidableEq

def Params.empty : Params :=
  ⟨none, none, none, none, none, none, none, none, none, none,
   none, none, none, none, none, none, none, none, none, none⟩

def Params.timed (t : ℤ) : Params := { Params.empty with time_period := some t }

structure ReportPeriod where
  days : ℤ
  start_date : ℤ
  end_date : ℤ
deriving DecidableEq

structure RevenueSummary where
  total_revenue : ℚ
  total_orders : ℕ
  average_order_value : ℚ
  growth_rate_percent : ℚ
deriving DecidableEq

structure RevenueBreakdown where
  by_category : List (String × ℚ)
  by_payment_method : List (String × ℚ)
  daily_revenue : List (ℤ × ℚ)
deriving DecidableEq

structure RevenueInsights where
  top_revenue_category : Option String
  preferred_payment_method : Option String
  peak_revenue_day : Option ℤ
deriving DecidableEq

structure RevenueReport where
  report_period : ReportPeriod
  revenue_summary : RevenueSummary
  revenue_breakdown : RevenueBreakdown
  insights : RevenueInsights
deriving DecidableEq

def revenueReportCore (time_period : ℤ) (now : ℤ)
    (purchases previous_purchases : List Purchase) (products : List Product) :
    Except String RevenueReport := do
  let cutoff_date := now - time_period * minutesPerDay
  let total_revenue := sumQ (purchases.map (fun p => p.total_amount))
  let total_orders := purchases.length
  let avg_order_value ← sdiv total_revenue ((max (total_orders : ℤ) 1 : ℤ) : ℚ)
  let category_revenue := purchases.foldl (fun acc p =>
    match products.find? (fun prod => decide (prod.id = p.product_id)) with
    | some prod => dictBump acc prod.category p.total_amount
    | none => acc) []
  let payment_revenue := purchases.foldl (fun acc p =>
    dictBump acc p.payment_method p.total_amount) []
  let daily_revenue := purchases.foldl (fun acc p =>
    dictBump acc (dayKey p.purchase_date) p.total_amount) []
  let previous_revenue := sumQ (previous_purchases.map (fun p => p.total_amount))
  let g ← sdiv (total_revenue - previous_revenue) (max previous_revenue 1)
  let growth_rate := g * 100
  pure
    { report_period :=
        { days := time_period, start_date := dayKey cutoff_date, end_date := dayKey now }
      revenue_summary :=
        { total_revenue := round2 total_revenue
          total_orders := total_orders
          average_order_value := round2 avg_order_value
          growth_rate_percent := round2 growth_rate }
      revenue_breakdown :=
        { by_category := category_revenue.map (fun kv => (kv.1, round2 kv.2))
          by_payment_method := payment_revenue.map (fun kv => (kv.1, round2 kv.2))
          daily_revenue := daily_revenue.map (fun kv => (kv.1, round2 kv.2)) }
      insights :=
        { top_revenue_category :=
            (pymax (fun kv : String × ℚ => kv.2) category_revenue).map Prod.fst
          preferred_payment_method :=
            (pymax (fun kv : String × ℚ => kv.2) payment_revenue).map Prod.fst
          peak_revenue_day :=
            (pymax (fun kv : ℤ × ℚ => kv.2) daily_revenue).map Prod.fst } }

def generate_revenue_report (params : Params) (now : ℤ) :
    DBOp (Except String RevenueReport) := do
  let time_period := params.time_period.getD 30
  let cutoff_date := now - time_period * minutesPerDay
  let previous_cutoff := cutoff_date - time_period * minutesPerDay
  let purchases ← selectPurchasesWhere (fun p => decide (cutoff_date ≤ p.purchase_date))
  let previous ← selectPurchasesWhere (fun p =>
    decide (previous_cutoff ≤ p.purchase_date) && decide (p.purchase_date < cutoff_date))
  let products ← selectProducts
  pure (revenueReportCore time_period now purchases previous products)

structure ProfitReport where
  analysis_period_days : ℤ
  total_revenue : ℚ
  cost_of_goods_sold : ℚ
  operational_costs : ℚ
  gross_profit : ℚ
  net_profit : ℚ
  gross_margin_percent : ℚ
  net_margin_percent : ℚ
  profit_by_category : List (String × ℚ)
deriving DecidableEq

def profitMarginsCore (time_period : ℤ) (purchases : List Purchase)
    (products : List Product) : Except String ProfitReport := do
  let total_revenue := sumQ (purchases.map (fun p => p.total_amount))
  let cogs := total_revenue * cost_of_goods_sold_percentage
  let operational_costs := total_revenue * operational_cost_percentage
  let total_costs := cogs + operational_costs
  let gross_profit := total_revenue - cogs
  let net_profit := total_revenue - total_costs
  let gm ← sdiv gross_profit (max total_revenue 1)
  let gross_margin := gm * 100
  let nm ← sdiv net_profit (max total_revenue 1)
  let net_margin := nm * 100
  let category_profit := purchases.foldl (fun acc p =>
    match products.find? (fun prod => decide (prod.id = p.product_id)) with
    | some prod => dictBump acc prod.category
        (p.total_amount - p.total_amount * cost_of_goods_sold_percentage)
    | none => acc) []
  pure
    { analysis_period_days := time_period
      total_revenue := round2 total_revenue
      cost_of_goods_sold := round2 cogs
      operational_costs := round2 operational_costs
      gross_profit := round2 gross_profit
      net_profit := round2 net_profit
      gross_margin_percent := round2 gross_margin
      net_margin_percent := round2 net_margin
      profit_by_category := category_profit.map (fun kv => (kv.1, round2 kv.2)) }

def analyze_profit_margins (params : Params) (now : ℤ) :
    DBOp (Except String ProfitReport) := do
  let time_period := params.time_period.getD 30
  let cutoff_date := now - time_period * minutesPerDay
  let purchases ← selectPurchasesWhere (fun p => decide (cutoff_date ≤ p.purchase_date))
  let products ← selectProducts
  pure (profitMarginsCore time_period purchases products)

structure KpiReport where
  kpi_period_days : ℤ
  total_revenue : ℚ
  average_order_value : ℚ
  revenue_per_customer : ℚ
  total_orders : ℕ
  unique_purchasing_customers : ℕ
  total_registered_customers : ℕ
  customer_acquisition_rate : ℚ
  conversion_rate : ℚ
  gross_profit : ℚ
  estimated_roi : ℚ
  profit_margin : ℚ
  total_sessions : ℕ
  sessions_to_purchase_quotient : ℚ
deriving DecidableEq

/-- Pure part of get_financial_kpis; the last field carries the
sessions-to-purchase figure of the source record. -/
def kpiCore (time_period : ℤ) (purchases : List Purchase)
    (sessions : List UserSession) (total_customers : ℕ) : Except String KpiReport := do
  let total_revenue := sumQ (purchases.map (fun p => p.total_amount))
  let total_orders := purchases.length
  let unique_customers := ((purchases.map (fun p => p.user_id)).dedup).length
  let total_sessions := sessions.length
  let aov ← sdiv total_revenue ((max (total_orders : ℤ) 1 : ℤ) : ℚ)
  let revenue_per_customer ← sdiv total_revenue ((max (unique_customers : ℤ) 1 : ℤ) : ℚ)
  let conversion_rate ←
    if 0 < total_sessions then do
      let c ← sdiv (unique_customers : ℚ) ((max (total_sessions : ℤ) 1 : ℤ) : ℚ)
      pure (c * 100)
    else pure (0 : ℚ)
  let car ← sdiv (unique_customers : ℚ) ((max (total_customers : ℤ) 1 : ℤ) : ℚ)
  let customer_acquisition_rate := car * 100
  let gross_profit := total_revenue * (1 - cost_of_goods_sold_percentage)
  let r ← sdiv gross_profit (max (total_revenue * cost_of_goods_sold_percentage) 1)
  let roi := r * 100
  let pm ← sdiv gross_profit (max total_revenue 1)
  let stp ← sdiv (total_sessions : ℚ) ((max (total_orders : ℤ) 1 : ℤ) : ℚ)
  pure
    { kpi_period_days := time_period
      total_revenue := round2 total_revenue
      average_order_value := round2 aov
      revenue_per_customer := round2 revenue_per_customer
      total_orders := total_orders
      unique_purchasing_customers := unique_customers
      total_registered_customers := total_customers
      customer_acquisition_rate := round2 customer_acquisition_rate
      conversion_rate := round2 conversion_rate
      gross_profit := round2 gross_profit
      estimated_roi := round2 roi
      profit_margin := round2 (pm * 100)
      total_sessions := total_sessions
      sessions_to_purchase_quotient := round2 stp }

def get_financial_kpis (params : Params) (now : ℤ) : DBOp (Except String KpiReport) := do
  let time_period := params.time_period.getD 30
  let cutoff_date := now - time_period * minutesPerDay
  let purchases ← selectPurchasesWhere (fun p => decide (cutoff_date ≤ p.purchase_date))
  let total_customers ← countUsers
  let sessions ← selectSessionsWhere (fun s => decide (cutoff_date ≤ s.session_start))
  pure (kpiCore time_period purchases sessions total_customers)

structure PaymentMethodData where
  total_revenue : ℚ
  order_count : ℕ
  avg_order_value : ℚ
  revenue_percentage : ℚ
  order_percentage : ℚ
deriving DecidableEq

structure PaymentReport where
  analysis_period_days : ℤ
  payment_method_analysis : List (String × PaymentMethodData)
  most_popular_payment : Option String
  highest_revenue_payment : Option String
  highest_aov_payment : Option String
deriving DecidableEq

/-- Second pass of analyze_payment_methods: fill in the derived fields of
every per-method entry (revenue and count were accumulated first). -/
def payFillAll (total_revenue : ℚ) (total_orders : ℕ) :
    List (String × ℚ × ℕ) → Except String (List (String × PaymentMethodData))
  | [] => Except.ok []
  | kv :: rest => do
    let aov ← sdiv kv.2.1 ((max (kv.2.2 : ℤ) 1 : ℤ) : ℚ)
    let rp ← sdiv kv.2.1 (max total_revenue 1)
    let op ← sdiv ((kv.2.2 : ℕ) : ℚ) ((max (total_orders : ℤ) 1 : ℤ) : ℚ)
    let tail ← payFillAll total_revenue total_orders rest
    Except.ok ((kv.1,
      { total_revenue := kv.2.1, order_count := kv.2.2, avg_order_value := aov,
        revenue_percentage := rp * 100, order_percentage := op * 100 }) :: tail)

def payBase (purchases : List Purchase) : List (String × ℚ × ℕ) :=
  purchases.foldl (fun acc p =>
    match acc.find? (fun kv => decide (kv.1 = p.payment_method)) with
    | some _ => acc.map (fun kv =>
        if kv.1 = p.payment_method then (kv.1, (kv.2.1 + p.total_amount, kv.2.2 + 1)) else kv)
    | none => acc ++ [(p.payment_method, (p.total_amount, 1))]) []

def paymentMethodsCore (time_period : ℤ) (purchases : List Purchase) :
    Except String PaymentReport := do
  let base := payBase purchases
  let total_revenue := sumQ (purchases.map (fun p => p.total_amount))
  let total_orders := purchases.length
  let filled ← payFillAll total_revenue total_orders base
  pure
    { analysis_period_days := time_period
      payment_method_analysis := filled.map (fun kv =>
        (kv.1,
          { total_revenue := round2 kv.2.total_revenue
            order_count := kv.2.order_count
            avg_order_value := round2 kv.2.avg_order_value
            revenue_percentage := round2 kv.2.revenue_percentage
            order_percentage := round2 kv.2.order_percentage }))
      most_popular_payment :=
        (pymax (fun kv : String × PaymentMethodData => kv.2.order_count) filled).map Prod.fst
      highest_revenue_payment :=
        (pymax (fun kv : String × PaymentMethodData => kv.2.total_revenue) filled).map Prod.fst
      highest_aov_payment :=
        (pymax (fun kv : String × PaymentMethodData => kv.2.avg_order_value) filled).map Prod.fst }

def analyze_payment_methods (params : Params) (now : ℤ) :
    DBOp (Except String PaymentReport) := do
  let time_period := params.time_period.getD 30
  let cutoff_date := now - time_period * minutesPerDay
  let purchases ← selectPurchasesWhere (fun p => decide (cutoff_date ≤ p.purchase_date))
  pure (paymentMethodsCore time_period purchases)


structure LtvEntry where
  user_id : ℤ
  user_name : String
  total_spent : ℚ
  purchase_count : ℕ
  avg_order_value : ℚ
  customer_lifespan_days : ℤ
  purchase_frequency_per_month : ℚ
  estimated_ltv : ℚ
  is_premium : Bool
deriving DecidableEq

/-- Per-user body of _calculate_customer_ltv: none when the user has no
purchases (such users are skipped), otherwise the LTV record. The
lifespan-in-months quotient lifespan_days / 30 is computed once and used
both inside the frequency guard and as the tenure factor. -/
def ltvEntryCore (u : User) (purchases : List Purchase) :
    Except String (Option LtvEntry) :=
  if purchases.isEmpty then Except.ok none
  else do
    let total_spent := sumQ (purchases.map (fun p => p.total_amount))
    let purchase_count := purchases.length
    let dates := purchases.map (fun p => p.purchase_date)
    let first_purchase := dates.foldl min (dates.headD 0)
    let last_purchase := dates.foldl max (dates.headD 0)
    let lifespan_days := timedeltaDays (last_purchase - first_purchase) + 1
    let avg_order_value ← sdiv total_spent ((purchase_count : ℤ) : ℚ)
    let lifespan_months ← sdiv ((lifespan_days : ℤ) : ℚ) 30
    let purchase_frequency ← sdiv ((purchase_count : ℤ) : ℚ) (max lifespan_months 1)
    let ltv := avg_order_value * purchase_frequency * lifespan_months
    Except.ok (some
      { user_id := u.id
        user_name := u.name
        total_spent := round2 total_spent
        purchase_count := purchase_count
        avg_order_value := round2 avg_order_value
        customer_lifespan_days := lifespan_days
        purchase_frequency_per_month := round2 purchase_frequency
        estimated_ltv := round2 ltv
        is_premium := u.is_premium })

/-- The ltv_data list: one entry per user with purchases, in user-table
order (the per-user purchase query is a filter of the purchase table). -/
def buildLtvData (allPurchases : List Purchase) :
    List User → Except String (List LtvEntry)
  | [] => Except.ok []
  | u :: rest => do
    let e ← ltvEntryCore u (allPurchases.filter (fun p => decide (p.user_id = u.id)))
    let tail ← buildLtvData allPurchases rest
    match e with
    | some entry => Except.ok (entry :: tail)
    | none => Except.ok tail

structure LtvReport where
  calculation_method : String
  average_ltv : ℚ
  median_ltv : ℚ
  total_customers_analyzed : ℕ
  high_value_customers : ℕ
  medium_value_customers : ℕ
  low_value_customers : ℕ
  top_customers_by_ltv : List LtvEntry
  ltv_formula : String
  assumptions : String
deriving DecidableEq

def ltvMethodologyFormula : String :=
  "AOV x Purchase Frequency x Customer Lifespan (months)"

def ltvMethodologyAssumptions : String :=
  "Based on historical purchase data and observed behavior patterns"

def calculateLtvCore (calculation_method : String) (ltv_data : List LtvEntry) :
    Except String LtvReport := do
  if ltv_data.isEmpty then
    Except.ok
      { calculation_method := calculation_method
        average_ltv := round2 0
        median_ltv := round2 0
        total_customers_analyzed := 0
        high_value_customers := 0
        medium_value_customers := 0
        low_value_customers := 0
        top_customers_by_ltv := []
        ltv_formula := ltvMethodologyFormula
        assumptions := ltvMethodologyAssumptions }
  else do
    let avg_ltv ← sdiv (sumQ (ltv_data.map (fun c => c.estimated_ltv)))
      ((ltv_data.length : ℤ) : ℚ)
    let sorted_vals := (ltv_data.map (fun c => c.estimated_ltv)).mergeSort
      (fun a b => decide (a ≤ b))
    let median_ltv := sorted_vals.getD (ltv_data.length / 2) 0
    let high := ltv_data.filter (fun c => decide (avg_ltv * (3 / 2) < c.estimated_ltv))
    let medium := ltv_data.filter (fun c =>
      decide (avg_ltv * (1 / 2) ≤ c.estimated_ltv)
        && decide (c.estimated_ltv ≤ avg_ltv * (3 / 2)))
    let low := ltv_data.filter (fun c => decide (c.estimated_ltv < avg_ltv * (1 / 2)))
    Except.ok
      { calculation_method := calculation_method
        average_ltv := round2 avg_ltv
        median_ltv := round2 median_ltv
        total_customers_analyzed := ltv_data.length
        high_value_customers := high.length
        medium_value_customers := medium.length
        low_value_customers := low.length
        top_customers_by_ltv :=
          (ltv_data.mergeSort (fun a b => decide (b.estimated_ltv ≤ a.estimated_ltv))).take 10
        ltv_formula := ltvMethodologyFormula
        assumptions := ltvMethodologyAssumptions }

def calculate_customer_ltv (params : Params) : DBOp (Except String LtvReport) := do
  let users ← selectUsers
  let purchases ← selectPurchases
  pure (do
    let data ← buildLtvData purchases users
    calculateLtvCore (params.calculation_method.getD "historical") data)

structure ForecastWeek where
  week : ℕ
  projected_revenue : ℚ
  confidence : String
deriving DecidableEq

structure ForecastReport where
  forecast_period_days : ℤ
  average_weekly_revenue : ℚ
  trend_per_week : ℚ
  total_weeks_analyzed : ℕ
  total_projected_revenue : ℚ
  weekly_projections : List ForecastWeek
  methodology : String
  disclaimer : String
deriving DecidableEq

/-- A returned result dict that is either an error payload or a value. -/
inductive ErrorOr (α : Type) where
  | err : String → ErrorOr α
  | val : α → ErrorOr α
deriving DecidableEq

def salesForecastCore (forecast_period : ℤ) (purchases : List Purchase) :
    Except String (ErrorOr ForecastReport) := do
  if purchases.isEmpty then
    Except.ok (ErrorOr.err "Insufficient historical data for forecasting")
  else do
    let weekly_revenue := purchases.foldl (fun acc p =>
      dictBump acc (weekKey p.purchase_date) p.total_amount) []
    let weeks := (weekly_revenue.map Prod.fst).mergeSort (fun a b => decide (a ≤ b))
    let revenues := weeks.map (fun w =>
      match weekly_revenue.find? (fun kv => decide (kv.1 = w)) with
      | some kv => kv.2
      | none => 0)
    if 2 ≤ revenues.length then do
      let trend ← sdiv (revenues.getLastD 0 - revenues.headD 0)
        ((max ((revenues.length : ℤ) - 1) 1 : ℤ) : ℚ)
      let avg_weekly ← sdiv (sumQ revenues) ((revenues.length : ℤ) : ℚ)
      let forecast_weeks := (Int.fdiv forecast_period 7).toNat
      let forecast_data := (List.range forecast_weeks).map (fun i =>
        let wk := i + 1
        let projected := avg_weekly + trend * ((wk : ℕ) : ℚ)
        { week := wk
          projected_revenue := round2 (max projected 0)
          confidence := if wk ≤ 4 then "medium" else "low" : ForecastWeek })
      let total_forecast := sumQ (forecast_data.map (fun f => f.projected_revenue))
      Except.ok (ErrorOr.val
        { forecast_period_days := forecast_period
          average_weekly_revenue := round2 avg_weekly
          trend_per_week := round2 trend
          total_weeks_analyzed := weeks.length
          total_projected_revenue := round2 total_forecast
          weekly_projections := forecast_data
          methodology := "Linear trend analysis based on 90-day historical data"
          disclaimer := "Forecasts are estimates based on historical trends and should be used for planning purposes only" })
    else
      Except.ok (ErrorOr.val
        { forecast_period_days := forecast_period
          average_weekly_revenue := round2 (revenues.headD 0)
          trend_per_week := round2 0
          total_weeks_analyzed := weeks.length
          total_projected_revenue := round2 0
          weekly_projections := []
          methodology := "Linear trend analysis based on 90-day historical data"
          disclaimer := "Forecasts are estimates based on historical trends and should be used for planning purposes only" })

def generate_sales_forecast (params : Params) (now : ℤ) :
    DBOp (Except String (ErrorOr ForecastReport)) := do
  let forecast_period := params.forecast_period.getD 30
  let cutoff_date := now - 90 * minutesPerDay
  let rows ← selectPurchasesWhere (fun p => decide (cutoff_date ≤ p.purchase_date))
  let purchases := rows.mergeSort (fun a b => decide (a.purchase_date ≤ b.purchase_date))
  pure (salesForecastCore forecast_period purchases)

structure ProfitabilityEntry where
  product_id : ℤ
  product_name : String
  category : String
  brand : String
  price : ℚ
  units_sold : ℤ
  total_revenue : ℚ
  estimated_cogs : ℚ
  gross_profit : ℚ
  profit_margin_percent : ℚ
  revenue_per_unit : ℚ
deriving DecidableEq

def profitabilityEntryCore (product : Product) (purchases : List Purchase) :
    Except String (Option ProfitabilityEntry) :=
  if purchases.isEmpty then Except.ok none
  else do
    let total_revenue := sumQ (purchases.map (fun p => p.total_amount))
    let units_sold := (purchases.map (fun p => p.quantity)).foldl (· + ·) 0
    let cogs := total_revenue * cost_of_goods_sold_percentage
    let gross_profit := total_revenue - cogs
    let pm ← sdiv gross_profit (max total_revenue 1)
    let profit_margin := pm * 100
    let rpu ← sdiv total_revenue ((max units_sold 1 : ℤ) : ℚ)
    Except.ok (some
      { product_id := product.id
        product_name := product.name
        category := product.category
        brand := product.brand
        price := product.price
        units_sold := units_sold
        total_revenue := round2 total_revenue
        estimated_cogs := round2 cogs
        gross_profit := round2 gross_profit
        profit_margin_percent := round2 profit_margin
        revenue_per_unit := round2 rpu })

def buildProfitability (allPurchases : List Purchase) (cutoff_date : ℤ) :
    List Product → Except String (List ProfitabilityEntry)
  | [] => Except.ok []
  | p :: rest => do
    let e ← profitabilityEntryCore p (allPurchases.filter (fun q =>
      decide (q.product_id = p.id) && decide (cutoff_date ≤ q.purchase_date)))
    let tail ← buildProfitability allPurchases cutoff_date rest
    match e with
    | some entry => Except.ok (entry :: tail)
    | none => Except.ok tail

structure ProfitabilityReport where
  analysis_period_days : ℤ
  products_analyzed : ℕ
  profitability_ranking : List ProfitabilityEntry
  most_profitable_product : Option String
  highest_margin_product : Option String
  total_gross_profit : ℚ
deriving DecidableEq

def analyze_product_profitability (params : Params) (now : ℤ) :
    DBOp (Except String ProfitabilityReport) := do
  let time_period := params.time_period.getD 30
  let cutoff_date := now - time_period * minutesPerDay
  let products ← selectProducts
  let purchases ← selectPurchases
  pure (do
    let data ← buildProfitability purchases cutoff_date products
    let ranked := data.mergeSort (fun a b => decide (b.gross_profit ≤ a.gross_profit))
    Except.ok
      { analysis_period_days := time_period
        products_analyzed := ranked.length
        profitability_ranking := ranked
        most_profitable_product := (ranked.head?).map (fun e => e.product_name)
        highest_margin_product :=
          (pymax (fun e : ProfitabilityEntry => e.profit_margin_percent) ranked).map
            (fun e => e.product_name)
        total_gross_profit := round2 (sumQ (ranked.map (fun e => e.gross_profit))) })

structure CohortData where
  users : ℕ
  total_revenue : ℚ
  total_orders : ℕ
  revenue_per_user : ℚ
  orders_per_user : ℚ
deriving DecidableEq

structure CohortReport where
  cohort_period : String
  cohort_analysis : List (ℤ × CohortData)
  most_valuable_cohort : Option ℤ
  largest_cohort : Option ℤ
deriving DecidableEq

/-- Second pass of get_cohort_revenue: per-user metrics for each cohort
group, with the revenue figures rounded as the source mutates them. -/
def cohortFill : List (ℤ × ℕ × ℚ × ℕ) → Except String (List (ℤ × CohortData))
  | [] => Except.ok []
  | kv :: rest => do
    let rpu ← sdiv kv.2.2.1 ((max (kv.2.1 : ℤ) 1 : ℤ) : ℚ)
    let opu ← sdiv ((kv.2.2.2 : ℕ) : ℚ) ((max (kv.2.1 : ℤ) 1 : ℤ) : ℚ)
    let tail ← cohortFill rest
    Except.ok ((kv.1,
      { users := kv.2.1
        total_revenue := round2 kv.2.2.1
        total_orders := kv.2.2.2
        revenue_per_user := round2 rpu
        orders_per_user := round2 opu }) :: tail)

def get_cohort_revenue (params : Params) : DBOp (Except String CohortReport) := do
  let cohort_period := params.cohort_period.getD "month"
  let users ← selectUsers
  let purchases ← selectPurchases
  let base := users.foldl (fun acc u =>
    let key := monthKey u.registration_date
    let user_purchases := purchases.filter (fun p => decide (p.user_id = u.id))
    let user_revenue := sumQ (user_purchases.map (fun p => p.total_amount))
    let user_orders := user_purchases.length
    match acc.find? (fun kv => decide (kv.1 = key)) with
    | some _ => acc.map (fun kv =>
        if kv.1 = key
        then (kv.1, (kv.2.1 + 1, kv.2.2.1 + user_revenue, kv.2.2.2 + user_orders))
        else kv)
    | none => acc ++ [(key, (1, user_revenue, user_orders))])
    ([] : List (ℤ × ℕ × ℚ × ℕ))
  pure (do
    let filled ← cohortFill base
    Except.ok
      { cohort_period := cohort_period
        cohort_analysis := filled
        most_valuable_cohort :=
          (pymax (fun kv : ℤ × CohortData => kv.2.revenue_per_user) filled).map Prod.fst
        largest_cohort :=
          (pymax (fun kv : ℤ × CohortData => kv.2.users) filled).map Prod.fst })

structure DiscountReport where
  analysis_period_days : ℤ
  total_orders : ℕ
  discounted_orders : ℕ
  full_price_orders : ℕ
  discount_adoption_rate : ℚ
  average_discount_percentage : ℚ
  total_discount_amount : ℚ
  discounted_revenue : ℚ
  full_price_revenue : ℚ
  revenue_impact_percentage : ℚ
deriving DecidableEq

def discountImpactCore (time_period : ℤ) (purchases : List Purchase) :
    Except String (ErrorOr DiscountReport) := do
  let discounted := purchases.filter (fun p => decide (0 < p.discount_applied))
  let full_price := purchases.filter (fun p => decide (p.discount_applied = 0))
  if purchases.isEmpty then
    Except.ok (ErrorOr.err "No purchase data available for analysis")
  else do
    let total_discount_amount :=
      sumQ (discounted.map (fun p => p.total_amount * p.discount_applied))
    let discounted_revenue := sumQ (discounted.map (fun p => p.total_amount))
    let full_price_revenue := sumQ (full_price.map (fun p => p.total_amount))
    let dr ← sdiv ((discounted.length : ℕ) : ℚ) ((purchases.length : ℕ) : ℚ)
    let discount_rate := dr * 100
    let ad ← sdiv (sumQ (discounted.map (fun p => p.discount_applied)))
      ((max (discounted.length : ℤ) 1 : ℤ) : ℚ)
    let avg_discount := ad * 100
    let ri ← sdiv total_discount_amount (max (discounted_revenue + full_price_revenue) 1)
    Except.ok (ErrorOr.val
      { analysis_period_days := time_period
        total_orders := purchases.length
        discounted_orders := discounted.length
        full_price_orders := full_price.length
        discount_adoption_rate := round2 discount_rate
        average_discount_percentage := round2 avg_discount
        total_discount_amount := round2 total_discount_amount
        discounted_revenue := round2 discounted_revenue
        full_price_revenue := round2 full_price_revenue
        revenue_impact_percentage := round2 (ri * 100) })

def analyze_discount_impact (params : Params) (now : ℤ) :
    DBOp (Except String (ErrorOr DiscountReport)) := do
  let time_period := params.time_period.getD 30
  let cutoff_date := now - time_period * minutesPerDay
  let purchases ← selectPurchasesWhere (fun p => decide (cutoff_date ≤ p.purchase_date))
  pure (discountImpactCore time_period purchases)

structure FinancialSummary where
  report_period_days : ℤ
  generated_at : ℤ
  total_revenue : ℚ
  gross_profit : ℚ
  net_profit : ℚ
  profit_margin : ℚ
  average_order_value : ℚ
  conversion_rate : ℚ
  revenue_analysis : RevenueReport
  profitability_analysis : ProfitReport
  key_performance_indicators : KpiReport
deriving DecidableEq

def generate_financial_summary (params : Params) (now : ℤ) :
    DBOp (Except String FinancialSummary) := do
  let time_period := params.time_period.getD 30
  let rr ← generate_revenue_report (Params.timed time_period) now
  let pa ← analyze_profit_margins (Params.timed time_period) now
  let kp ← get_financial_kpis (Params.timed time_period) now
  pure (do
    let r ← rr
    let p ← pa
    let k ← kp
    Except.ok
      { report_period_days := time_period
        generated_at := now
        total_revenue := r.revenue_summary.total_revenue
        gross_profit := p.gross_profit
        net_profit := p.net_profit
        profit_margin := p.gross_margin_percent
        average_order_value := k.average_order_value
        conversion_rate := k.conversion_rate
        revenue_analysis := r
        profitability_analysis := p
        key_performance_indicators := k })


/-! ## Division safety of the financial tools -/

theorem sdiv_eq {b : ℚ} (a : ℚ) (h : b ≠ 0) : sdiv a b = Except.ok (a / b) := by
  simp [sdiv, h]

theorem qmax_one_ne (b : ℚ) : max b 1 ≠ 0 :=
  ne_of_gt (lt_of_lt_of_le one_pos (le_max_right b 1))

theorem imax_cast_ne (n : ℤ) : ((max n 1 : ℤ) : ℚ) ≠ 0 :=
  Int.cast_ne_zero.mpr (ne_of_gt (lt_of_lt_of_le one_pos (le_max_right n 1)))

theorem sdiv_qmax (a b : ℚ) : sdiv a (max b 1) = Except.ok (a / max b 1) :=
  sdiv_eq a (qmax_one_ne b)

theorem sdiv_imax (a : ℚ) (n : ℤ) :
    sdiv a ((max n 1 : ℤ) : ℚ) = Except.ok (a / ((max n 1 : ℤ) : ℚ)) :=
  sdiv_eq a (imax_cast_ne n)

theorem sdiv_thirty (a : ℚ) : sdiv a 30 = Except.ok (a / 30) :=
  sdiv_eq a (by norm_num)

theorem sdiv_list_length {α : Type} (a : ℚ) (l : List α) (h : l.isEmpty = false) :
    sdiv a ((l.length : ℤ) : ℚ) = Except.ok (a / ((l.length : ℤ) : ℚ)) := by
  apply sdiv_eq
  have hne : l.length ≠ 0 := by
    cases l with
    | nil => simp at h
    | cons x xs => simp
  exact_mod_cast (by exact_mod_cast hne : ((l.length : ℤ) : ℤ) ≠ 0)

theorem sdiv_list_length_nat {α : Type} (a : ℚ) (l : List α) (h : l.isEmpty = false) :
    sdiv a ((l.length : ℕ) : ℚ) = Except.ok (a / ((l.length : ℕ) : ℚ)) := by
  apply sdiv_eq
  have hne : l.length ≠ 0 := by
    cases l with
    | nil => simp at h
    | cons x xs => simp
  exact_mod_cast hne

theorem revenueReportCore_ok (tp now : ℤ) (ps prev : List Purchase)
    (prods : List Product) : ∃ r, revenueReportCore tp now ps prev prods = Except.ok r := by
  simp only [revenueReportCore, sdiv_imax, sdiv_qmax]
  exact ⟨_, rfl⟩

theorem profitMarginsCore_ok (tp : ℤ) (ps : List Purchase) (prods : List Product) :
    ∃ r, profitMarginsCore tp ps prods = Except.ok r := by
  simp only [profitMarginsCore, sdiv_qmax]
  exact ⟨_, rfl⟩

theorem kpiCore_ok (tp : ℤ) (ps : List Purchase) (ss : List UserSession) (tc : ℕ) :
    ∃ r, kpiCore tp ps ss tc = Except.ok r := by
  simp only [kpiCore, sdiv_imax, sdiv_qmax]
  split
  · exact ⟨_, rfl⟩
  · exact ⟨_, rfl⟩

theorem payFillAll_ok (tr : ℚ) (tord : ℕ) (l : List (String × ℚ × ℕ)) :
    ∃ r, payFillAll tr tord l = Except.ok r := by
  induction l with
  | nil => exact ⟨_, rfl⟩
  | cons kv rest ih =>
    obtain ⟨r, hr⟩ := ih
    simp only [payFillAll, sdiv_imax, sdiv_qmax]
    rw [hr]
    exact ⟨_, rfl⟩

theorem paymentMethodsCore_ok (tp : ℤ) (ps : List Purchase) :
    ∃ r, paymentMethodsCore tp ps = Except.ok r := by
  obtain ⟨r, hr⟩ := payFillAll_ok (sumQ (ps.map (fun p => p.total_amount))) ps.length
    (payBase ps)
  simp only [paymentMethodsCore]
  rw [hr]
  exact ⟨_, rfl⟩


/-- C5 support: on a nonempty purchase list the LTV entry exists and its
estimated LTV is exactly rounded AOV x monthly purchase frequency x
lifespan in months, with AOV the total spent over the purchase count,
the lifespan in days one more than the whole-day difference between the
last and the first purchase, the frequency the purchase count over the
lifespan in months floored at one month, and the lifespan in months the
lifespan in days over thirty; an empty purchase list yields no entry. -/
theorem ltvEntryCore_formula (u : User) (purchases : List Purchase) :
    (purchases.isEmpty = false →
      ∃ e, ltvEntryCore u purchases = Except.ok (some e)
        ∧ e.user_id = u.id
        ∧ e.customer_lifespan_days
            = timedeltaDays
                ((purchases.map (fun p => p.purchase_date)).foldl max
                    ((purchases.map (fun p => p.purchase_date)).headD 0)
                  - (purchases.map (fun p => p.purchase_date)).foldl min
                    ((purchases.map (fun p => p.purchase_date)).headD 0)) + 1
        ∧ e.estimated_ltv
            = round2
              ((sumQ (purchases.map (fun p => p.total_amount))
                  / ((purchases.length : ℤ) : ℚ))
                * (((purchases.length : ℤ) : ℚ)
                  / max (((e.customer_lifespan_days : ℤ) : ℚ) / 30) 1)
                * (((e.customer_lifespan_days : ℤ) : ℚ) / 30)))
    ∧ (purchases.isEmpty = true → ltvEntryCore u purchases = Except.ok none) := by
  constructor
  · intro h
    rw [ltvEntryCore]
    rw [h]
    simp only [Bool.false_eq_true, if_false]
    rw [sdiv_list_length _ _ h]
    simp only [sdiv_thirty, sdiv_qmax]
    exact ⟨_, rfl, rfl, rfl, rfl⟩
  · intro h
    rw [ltvEntryCore, h]
    rfl

theorem ltvEntryCore_ok (u : User) (purchases : List Purchase) :
    ∃ o, ltvEntryCore u purchases = Except.ok o := by
  cases h : purchases.isEmpty with
  | false =>
    obtain ⟨e, he, _⟩ := (ltvEntryCore_formula u purchases).1 h
    exact ⟨some e, he⟩
  | true => exact ⟨none, (ltvEntryCore_formula u purchases).2 h⟩

theorem buildLtvData_ok (allPurchases : List Purchase) (users : List User) :
    ∃ r, buildLtvData allPurchases users = Except.ok r := by
  induction users with
  | nil => exact ⟨_, rfl⟩
  | cons u rest ih =>
    obtain ⟨r, hr⟩ := ih
    obtain ⟨o, ho⟩ := ltvEntryCore_ok u
      (allPurchases.filter (fun p => decide (p.user_id = u.id)))
    rw [buildLtvData, ho, hr]
    cases o with
    | some entry => exact ⟨_, rfl⟩
    | none => exact ⟨_, rfl⟩

theorem calculateLtvCore_ok (cm : String) (data : List LtvEntry) :
    ∃ r, calculateLtvCore cm data = Except.ok r := by
  cases h : data.isEmpty with
  | true =>
    rw [calculateLtvCore, h]
    exact ⟨_, rfl⟩
  | false =>
    rw [calculateLtvCore, h]
    simp only [Bool.false_eq_true, if_false]
    rw [sdiv_list_length _ _ h]
    exact ⟨_, rfl⟩

theorem discountImpactCore_ok (tp : ℤ) (ps : List Purchase) :
    ∃ r, discountImpactCore tp ps = Except.ok r := by
  cases h : ps.isEmpty with
  | true =>
    rw [discountImpactCore, h]
    exact ⟨_, rfl⟩
  | false =>
    rw [discountImpactCore, h]
    simp only [Bool.false_eq_true, if_false]
    rw [sdiv_list_length_nat _ _ h]
    simp only [sdiv_imax, sdiv_qmax]
    exact ⟨_, rfl⟩


theorem except_isOk_of_eq {α : Type} {e : Except String α} {r : α}
    (h : e = Except.ok r) : e.isOk = true := by
  rw [h]; rfl

/-- C2: the six aggregate financial tools never raise a division-by-zero
error: on every database state and every parameter dict the Except value
they produce is ok, because every divisor is either floored at one with
max(.., 1), a count known positive from a non-emptiness test, or the
constant thirty. -/
theorem financial_no_division_by_zero (params : Params) (now : ℤ) (db : DB) :
    ((generate_revenue_report params now) db).1.isOk = true
    ∧ ((analyze_profit_margins params now) db).1.isOk = true
    ∧ ((get_financial_kpis params now) db).1.isOk = true
    ∧ ((analyze_payment_methods params now) db).1.isOk = true
    ∧ ((calculate_customer_ltv params) db).1.isOk = true
    ∧ ((analyze_discount_impact params now) db).1.isOk = true := by
  refine ⟨?_, ?_, ?_, ?_, ?_, ?_⟩
  · exact except_isOk_of_eq (Exists.choose_spec (revenueReportCore_ok _ _ _ _ _))
  · exact except_isOk_of_eq (Exists.choose_spec (profitMarginsCore_ok _ _ _))
  · exact except_isOk_of_eq (Exists.choose_spec (kpiCore_ok _ _ _ _))
  · exact except_isOk_of_eq (Exists.choose_spec (paymentMethodsCore_ok _ _))
  · obtain ⟨data, hd⟩ := buildLtvData_ok db.purchases db.users
    obtain ⟨rep, hrep⟩ := calculateLtvCore_ok (params.calculation_method.getD "historical") data
    have hbridge : ((calculate_customer_ltv params) db).1
        = (buildLtvData db.purchases db.users).bind
            (fun data => calculateLtvCore (params.calculation_method.getD "historical") data) :=
      rfl
    rw [hbridge, hd]
    exact except_isOk_of_eq hrep
  · exact except_isOk_of_eq (Exists.choose_spec (discountImpactCore_ok _ _))

/-- C5: the estimated LTV of every user with at least one purchase is
rounded AOV x monthly purchase frequency x lifespan in months, with
AOV = total spent / purchase count, lifespan in days = whole-day spread
of the purchase dates + 1, frequency = purchase count / max(lifespan in
months, 1) and lifespan in months = lifespan in days / 30; users without
purchases produce no entry, and the tool pipes every user through this
per-user computation. -/
theorem customer_ltv_spec (u : User) (purchases : List Purchase) :
    (purchases.isEmpty = false →
      ∃ e, ltvEntryCore u purchases = Except.ok (some e)
        ∧ e.user_id = u.id
        ∧ e.customer_lifespan_days
            = timedeltaDays
                ((purchases.map (fun p => p.purchase_date)).foldl max
                    ((purchases.map (fun p => p.purchase_date)).headD 0)
                  - (purchases.map (fun p => p.purchase_date)).foldl min
                    ((purchases.map (fun p => p.purchase_date)).headD 0)) + 1
        ∧ e.estimated_ltv
            = round2
              ((sumQ (purchases.map (fun p => p.total_amount))
                  / ((purchases.length : ℤ) : ℚ))
                * (((purchases.length : ℤ) : ℚ)
                  / max (((e.customer_lifespan_days : ℤ) : ℚ) / 30) 1)
                * (((e.customer_lifespan_days : ℤ) : ℚ) / 30)))
    ∧ (purchases.isEmpty = true → ltvEntryCore u purchases = Except.ok none)
    ∧ (∀ (params : Params) (db : DB),
        ((calculate_customer_ltv params) db).1
          = (buildLtvData db.purchases db.users).bind
              (fun data => calculateLtvCore (params.calculation_method.getD "historical") data)) :=
  ⟨(ltvEntryCore_formula u purchases).1, (ltvEntryCore_formula u purchases).2,
    fun _ _ => rfl⟩

/-- Closed instance of the LTV specification at a user with one purchase. -/
theorem customer_ltv_spec_witness :
    (([⟨1, 1, 1, 1, 10, 0, "paypal", 0⟩] : List Purchase).isEmpty = false)
    ∧ ∃ e, ltvEntryCore ⟨1, "user1@example.com", "Alice Johnson 1", 30, "F", "Chicago", 0, false⟩
          [⟨1, 1, 1, 1, 10, 0, "paypal", 0⟩] = Except.ok (some e)
        ∧ e.user_id = 1
        ∧ e.customer_lifespan_days
            = timedeltaDays
                ((([⟨1, 1, 1, 1, 10, 0, "paypal", 0⟩] : List Purchase).map
                    (fun p => p.purchase_date)).foldl max
                    ((([⟨1, 1, 1, 1, 10, 0, "paypal", 0⟩] : List Purchase).map
                      (fun p => p.purchase_date)).headD 0)
                  - (([⟨1, 1, 1, 1, 10, 0, "paypal", 0⟩] : List Purchase).map
                      (fun p => p.purchase_date)).foldl min
                    ((([⟨1, 1, 1, 1, 10, 0, "paypal", 0⟩] : List Purchase).map
                      (fun p => p.purchase_date)).headD 0)) + 1
        ∧ e.estimated_ltv
            = round2
              ((sumQ (([⟨1, 1, 1, 1, 10, 0, "paypal", 0⟩] : List Purchase).map
                    (fun p => p.total_amount))
                  / ((([⟨1, 1, 1, 1, 10, 0, "paypal", 0⟩] : List Purchase).length : ℤ) : ℚ))
                * (((([⟨1, 1, 1, 1, 10, 0, "paypal", 0⟩] : List Purchase).length : ℤ) : ℚ)
                  / max (((e.customer_lifespan_days : ℤ) : ℚ) / 30) 1)
                * (((e.customer_lifespan_days : ℤ) : ℚ) / 30)) :=
  ⟨rfl, (customer_ltv_spec ⟨1, "user1@example.com", "Alice Johnson 1", 30, "F", "Chicago", 0,
    false⟩ [⟨1, 1, 1, 1, 10, 0, "paypal", 0⟩]).1 rfl⟩

/-- Closed instance of the division-safety theorem at the empty database
and default parameters. -/
theorem financial_no_division_by_zero_witness :
    ((generate_revenue_report Params.empty 0) emptyDB).1.isOk = true
    ∧ ((calculate_customer_ltv Params.empty) emptyDB).1.isOk = true :=
  ⟨(financial_no_division_by_zero Params.empty 0 emptyDB).1,
   (financial_no_division_by_zero Params.empty 0 emptyDB).2.2.2.2.1⟩


/-! ## User behavior agent (backend/mcp_server/agents/user_behavior_agent.py) -/

/-- _calculate_engagement_level: weighted score over the result lists. -/
def calculate_engagement_level (sessions : List UserSession) (page_views : List PageView)
    (purchases : List Purchase) : String :=
  let total_score : ℚ := (sessions.length : ℚ) * 1
    + (page_views.length : ℚ) * (1 / 2) + (purchases.length : ℚ) * 3
  if 50 < total_score then "high"
  else if 15 < total_score then "medium"
  else if 0 < total_score then "low"
  else "inactive"

structure SessionDetail where
  session_id : ℤ
  start_time : ℤ
  duration_minutes : ℚ
  pages_viewed : ℤ
  device_type : String
  browser : String
deriving DecidableEq

structure UserBehaviorReport where
  user_id : ℤ
  name : String
  email : String
  is_premium : Bool
  registration_date : ℤ
  analysis_period_days : ℤ
  total_sessions : ℕ
  avg_session_duration_minutes : ℚ
  total_page_views : ℕ
  pages_per_session : ℚ
  total_purchases : ℕ
  total_spent : ℚ
  avg_order_value : ℚ
  device_preferences : List (String × ℕ)
  engagement_level : String
  detailed_sessions : Option (List SessionDetail)
deriving DecidableEq

def analyzeUserBehaviorCore (user : User) (days_back : ℤ) (include_details : Bool)
    (sessions : List UserSession) (purchases : List Purchase) (views : List PageView) :
    Except String UserBehaviorReport := do
  let total_sessions := sessions.length
  let asd ← sdiv (sumQ (sessions.map (fun s => s.session_duration_minutes)))
    ((max (total_sessions : ℤ) 1 : ℤ) : ℚ)
  let total_page_views := views.length
  let pps ← sdiv ((total_page_views : ℕ) : ℚ) ((max (total_sessions : ℤ) 1 : ℤ) : ℚ)
  let device_usage := sessions.foldl (fun acc s => dictCount acc s.device_type) []
  let total_purchases := purchases.length
  let total_spent := sumQ (purchases.map (fun p => p.total_amount))
  let aov ← sdiv total_spent ((max (total_purchases : ℤ) 1 : ℤ) : ℚ)
  Except.ok
    { user_id := user.id
      name := user.name
      email := user.email
      is_premium := user.is_premium
      registration_date := user.registration_date
      analysis_period_days := days_back
      total_sessions := total_sessions
      avg_session_duration_minutes := round2 asd
      total_page_views := total_page_views
      pages_per_session := round2 pps
      total_purchases := total_purchases
      total_spent := round2 total_spent
      avg_order_value := round2 aov
      device_preferences := device_usage
      engagement_level := calculate_engagement_level sessions views purchases
      detailed_sessions :=
        if include_details then
          some ((sessions.drop (total_sessions - 10)).map (fun s =>
            { session_id := s.id, start_time := s.session_start,
              duration_minutes := s.session_duration_minutes,
              pages_viewed := s.pages_viewed, device_type := s.device_type,
              browser := s.browser }))
        else none }

def analyze_user_behavior (params : Params) (now : ℤ) :
    DBOp (Except String (ErrorOr UserBehaviorReport)) := do
  let user_id := params.user_id
  let days_back := params.days_back.getD 30
  let include_details := params.include_details.getD true
  if optIntTruthy user_id = false then
    pure (Except.ok (ErrorOr.err "user_id is required"))
  else do
    let uid := user_id.getD 0
    let users ← selectUsers
    match users.find? (fun u => decide (u.id = uid)) with
    | none => pure (Except.ok (ErrorOr.err ("User " ++ toString uid ++ " not found")))
    | some user => do
      let cutoff_date := now - days_back * minutesPerDay
      let sessions ← selectSessionsWhere (fun s =>
        decide (s.user_id = uid) && decide (cutoff_date ≤ s.session_start))
      let purchases ← selectPurchasesWhere (fun p =>
        decide (p.user_id = uid) && decide (cutoff_date ≤ p.purchase_date))
      let all_sessions ← selectSessions
      let views ← selectPageViewsWhere (fun pv =>
        all_sessions.any (fun s => decide (s.id = pv.session_id) && decide (s.user_id = uid))
          && decide (cutoff_date ≤ pv.timestamp))
      pure ((analyzeUserBehaviorCore user days_back include_details sessions
        purchases views).map ErrorOr.val)

structure JourneyStep where
  step : ℕ
  page_type : String
  product_id : Option ℤ
  timestamp : ℤ
  time_spent_seconds : ℚ
  product_name : Option String
  product_category : Option String
deriving DecidableEq

structure SessionJourney where
  session_id : ℤ
  user_id : ℤ
  device_type : String
  browser : String
  total_duration_minutes : ℚ
  journey_steps : List JourneyStep
  total_steps : ℕ
  total_time_seconds : ℚ
  avg_time_per_step : ℚ
deriving DecidableEq

structure UserJourneyPatterns where
  user_id : ℤ
  journey_patterns : List (String × ℕ)
  most_common_pattern : Option (String × ℕ)
deriving DecidableEq

inductive JourneyResult where
  | bySession : SessionJourney → JourneyResult
  | byUser : UserJourneyPatterns → JourneyResult
deriving DecidableEq

/-- Session branch of _get_user_journey; the views are already restricted
to the session and ordered by timestamp. -/
def sessionJourneyCore (session : UserSession) (views : List PageView)
    (products : List Product) : Except String SessionJourney := do
  let steps := views.enum.map (fun iv =>
    let pv := iv.2
    let prodinfo : Option String × Option String :=
      if optIntTruthy pv.product_id then
        match products.find? (fun pr => decide (pr.id = pv.product_id.getD 0)) with
        | some pr => (some pr.name, some pr.category)
        | none => (none, none)
      else (none, none)
    { step := iv.1 + 1
      page_type := pv.page_type
      product_id := pv.product_id
      timestamp := pv.timestamp
      time_spent_seconds := pv.time_spent_seconds
      product_name := prodinfo.1
      product_category := prodinfo.2 })
  let total_time := sumQ (views.map (fun pv => pv.time_spent_seconds))
  let atps ← sdiv total_time ((max (steps.length : ℤ) 1 : ℤ) : ℚ)
  Except.ok
    { session_id := session.id
      user_id := session.user_id
      device_type := session.device_type
      browser := session.browser
      total_duration_minutes := session.session_duration_minutes
      journey_steps := steps
      total_steps := steps.length
      total_time_seconds := total_time
      avg_time_per_step := atps }

def get_user_journey (params : Params) : DBOp (Except String (ErrorOr JourneyResult)) := do
  let user_id := params.user_id
  let session_id := params.session_id
  if optIntTruthy session_id then do
    let sid := session_id.getD 0
    let sessions ← selectSessions
    match sessions.find? (fun s => decide (s.id = sid)) with
    | none => pure (Except.ok (ErrorOr.err ("Session " ++ toString sid ++ " not found")))
    | some session => do
      let views0 ← selectPageViewsWhere (fun pv => decide (pv.session_id = sid))
      let views := views0.mergeSort (fun a b => decide (a.timestamp ≤ b.timestamp))
      let products ← selectProducts
      pure ((sessionJourneyCore session views products).map
        (fun j => ErrorOr.val (JourneyResult.bySession j)))
  else if optIntTruthy user_id then do
    let uid := user_id.getD 0
    let sessions0 ← selectSessionsWhere (fun s => decide (s.user_id = uid))
    let recent := (sessions0.mergeSort (fun a b => decide (b.session_start ≤ a.session_start))).take 10
    let views ← selectPageViews
    let patterns := recent.foldl (fun acc s =>
      let svs := (views.filter (fun pv => decide (pv.session_id = s.id))).mergeSort
        (fun a b => decide (a.timestamp ≤ b.timestamp))
      let pat := String.intercalate " -> " (svs.map (fun pv => pv.page_type))
      dictCount acc pat) []
    pure (Except.ok (ErrorOr.val (JourneyResult.byUser
      { user_id := uid
        journey_patterns := patterns
        most_common_pattern := pymax (fun kv : String × ℕ => kv.2) patterns })))
  else pure (Except.ok (ErrorOr.err "Either user_id or session_id is required"))

structure DurationBuckets where
  short : ℕ
  medium : ℕ
  long : ℕ
deriving DecidableEq

structure SessionPatternsReport where
  analysis_period_days : ℤ
  total_sessions_analyzed : ℕ
  average_session_duration : ℚ
  hourly_distribution : List (ℤ × ℕ)
  daily_distribution : List (String × ℕ)
  device_distribution : List (String × ℕ)
  duration_distribution : DurationBuckets
  peak_hour : Option ℤ
  peak_day : Option String
  preferred_device : Option String
deriving DecidableEq

def sessionPatternsCore (time_period : ℤ) (sessions : List UserSession) :
    Except String SessionPatternsReport := do
  let hourly := sessions.foldl (fun acc s => dictCount acc (hourOf s.session_start)) []
  let daily := sessions.foldl (fun acc s => dictCount acc (weekdayName s.session_start)) []
  let device := sessions.foldl (fun acc s => dictCount acc s.device_type) []
  let buckets := sessions.foldl (fun b s =>
    let d := s.session_duration_minutes
    if d < 5 then { b with short := b.short + 1 }
    else if d < 30 then { b with medium := b.medium + 1 }
    else { b with long := b.long + 1 }) (⟨0, 0, 0⟩ : DurationBuckets)
  let total_sessions := sessions.length
  let avg ← sdiv (sumQ (sessions.map (fun s => s.session_duration_minutes)))
    ((max (total_sessions : ℤ) 1 : ℤ) : ℚ)
  Except.ok
    { analysis_period_days := time_period
      total_sessions_analyzed := total_sessions
      average_session_duration := round2 avg
      hourly_distribution := hourly
      daily_distribution := daily
      device_distribution := device
      duration_distribution := buckets
      peak_hour := (pymax (fun kv : ℤ × ℕ => kv.2) hourly).map Prod.fst
      peak_day := (pymax (fun kv : String × ℕ => kv.2) daily).map Prod.fst
      preferred_device := (pymax (fun kv : String × ℕ => kv.2) device).map Prod.fst }

def analyze_session_patterns (params : Params) (now : ℤ) :
    DBOp (Except String SessionPatternsReport) := do
  let time_period := params.time_period.getD 30
  let device_filter := params.device_filter
  let cutoff_date := now - time_period * minutesPerDay
  let sessions ← selectSessionsWhere (fun s =>
    decide (cutoff_date ≤ s.session_start)
      && (if optStrTruthy device_filter then decide (s.device_type = device_filter.getD "")
          else true))
  pure (sessionPatternsCore time_period sessions)

structure SegmentUserInfo where
  user_id : ℤ
  name : String
  email : String
  is_premium : Bool
  engagement_score : ℚ
  sessions_count : ℕ
  purchases_count : ℕ
  total_spent : ℚ
deriving DecidableEq

/-- Per-user engagement scores of _get_user_segmentation; each pair keeps
the raw score used by the comparison chain alongside the record whose
displayed score is rounded. -/
def segBuild (sessions : List UserSession) (purchases : List Purchase) :
    List User → Except String (List (ℚ × SegmentUserInfo))
  | [] => Except.ok []
  | u :: rest => do
    let sessions_count := (sessions.filter (fun s => decide (s.user_id = u.id))).length
    let user_purchases := purchases.filter (fun p => decide (p.user_id = u.id))
    let purchases_count := user_purchases.length
    let total_spent := sumQ (user_purchases.map (fun p => p.total_amount))
    let h ← sdiv total_spent 100
    let engagement_score := (sessions_count : ℚ) + (purchases_count : ℚ) * 2 + h
    let tail ← segBuild sessions purchases rest
    Except.ok ((engagement_score,
      { user_id := u.id
        name := u.name
        email := u.email
        is_premium := u.is_premium
        engagement_score := round2 engagement_score
        sessions_count := sessions_count
        purchases_count := purchases_count
        total_spent := total_spent }) :: tail)

structure SegmentationReport where
  segmentation_criteria : String
  high_engagement : List SegmentUserInfo
  medium_engagement : List SegmentUserInfo
  low_engagement : List SegmentUserInfo
  inactive : List SegmentUserInfo
  high_count : ℕ
  medium_count : ℕ
  low_count : ℕ
  inactive_count : ℕ
deriving DecidableEq

def get_user_segmentation (params : Params) : DBOp (Except String SegmentationReport) := do
  let criteria := params.segmentation_criteria.getD "engagement"
  let users ← selectUsers
  let sessions ← selectSessions
  let purchases ← selectPurchases
  pure (do
    let infos ← segBuild sessions purchases users
    let inactive := (infos.filter (fun si => decide (si.1 = 0))).map Prod.snd
    let low := (infos.filter (fun si =>
      !(decide (si.1 = 0)) && decide (si.1 < 5))).map Prod.snd
    let medium := (infos.filter (fun si =>
      !(decide (si.1 = 0)) && !(decide (si.1 < 5)) && decide (si.1 < 20))).map Prod.snd
    let high := (infos.filter (fun si =>
      !(decide (si.1 = 0)) && !(decide (si.1 < 5)) && !(decide (si.1 < 20)))).map Prod.snd
    Except.ok
      { segmentation_criteria := criteria
        high_engagement := high
        medium_engagement := medium
        low_engagement := low
        inactive := inactive
        high_count := high.length
        medium_count := medium.length
        low_count := low.length
        inactive_count := inactive.length })

structure EngagementReport where
  metric_type : String
  time_period_days : ℤ
  user_activity_rate : ℚ
  sessions_per_user : ℚ
  pages_per_session : ℚ
  conversion_rate : ℚ
  total_users : ℕ
  active_users : ℕ
  total_sessions : ℕ
  total_page_views : ℕ
  purchasing_users : ℕ
deriving DecidableEq

def engagementMetricsCore (metric_type : String) (time_period : ℤ) (total_users : ℕ)
    (sessions : List UserSession) (views : List PageView) (purchases : List Purchase) :
    Except String EngagementReport := do
  let active_users := ((sessions.map (fun s => s.user_id)).dedup).length
  let total_sessions := sessions.length
  let total_page_views := views.length
  let purchasing_users := ((purchases.map (fun p => p.user_id)).dedup).length
  let uar ← sdiv ((active_users : ℕ) : ℚ) ((max (total_users : ℤ) 1 : ℤ) : ℚ)
  let spu ← sdiv ((total_sessions : ℕ) : ℚ) ((max (active_users : ℤ) 1 : ℤ) : ℚ)
  let pps ← sdiv ((total_page_views : ℕ) : ℚ) ((max (total_sessions : ℤ) 1 : ℤ) : ℚ)
  let cr ← sdiv ((purchasing_users : ℕ) : ℚ) ((max (active_users : ℤ) 1 : ℤ) : ℚ)
  Except.ok
    { metric_type := metric_type
      time_period_days := time_period
      user_activity_rate := round2 (uar * 100)
      sessions_per_user := round2 spu
      pages_per_session := round2 pps
      conversion_rate := round2 (cr * 100)
      total_users := total_users
      active_users := active_users
      total_sessions := total_sessions
      total_page_views := total_page_views
      purchasing_users := purchasing_users }

def analyze_engagement_metrics (params : Params) (now : ℤ) :
    DBOp (Except String EngagementReport) := do
  let metric_type := params.metric_type.getD "overall"
  let time_period := params.time_period.getD 30
  let cutoff_date := now - time_period * minutesPerDay
  let total_users ← countUsers
  let sessions ← selectSessionsWhere (fun s => decide (cutoff_date ≤ s.session_start))
  let views ← selectPageViewsWhere (fun pv => decide (cutoff_date ≤ pv.timestamp))
  let purchases ← selectPurchasesWhere (fun p => decide (cutoff_date ≤ p.purchase_date))
  pure (engagementMetricsCore metric_type time_period total_users sessions views purchases)

structure CohortRetention where
  total_users : ℕ
  active_users : ℕ
  retention_rate : ℚ
deriving DecidableEq

structure RetentionReport where
  analysis_period_days : ℤ
  retention_metric : String
  recent_cohort : CohortRetention
  older_cohort : CohortRetention
  overall_retention_trend : String
  churn_risk : String
deriving DecidableEq

def retentionCore (cohort_period : ℤ) (retention_metric : String)
    (recent_users older_users : List User) (sessions : List UserSession)
    (cutoff_date : ℤ) : Except String RetentionReport := do
  let active_recent := recent_users.countP (fun u =>
    decide (0 < (sessions.filter (fun s =>
      decide (s.user_id = u.id) && decide (cutoff_date ≤ s.session_start))).length))
  let active_older := older_users.countP (fun u =>
    decide (0 < (sessions.filter (fun s =>
      decide (s.user_id = u.id) && decide (cutoff_date ≤ s.session_start))).length))
  let rr ← sdiv ((active_recent : ℕ) : ℚ) ((max (recent_users.length : ℤ) 1 : ℤ) : ℚ)
  let retention_rate_recent := rr * 100
  let ro ← sdiv ((active_older : ℕ) : ℚ) ((max (older_users.length : ℤ) 1 : ℤ) : ℚ)
  let retention_rate_older := ro * 100
  Except.ok
    { analysis_period_days := cohort_period
      retention_metric := retention_metric
      recent_cohort :=
        { total_users := recent_users.length
          active_users := active_recent
          retention_rate := round2 retention_rate_recent }
      older_cohort :=
        { total_users := older_users.length
          active_users := active_older
          retention_rate := round2 retention_rate_older }
      overall_retention_trend :=
        if retention_rate_older < retention_rate_recent then "improving" else "declining"
      churn_risk :=
        if 70 < retention_rate_recent then "low"
        else if 50 < retention_rate_recent then "medium"
        else "high" }

def get_user_retention (params : Params) (now : ℤ) :
    DBOp (Except String RetentionReport) := do
  let cohort_period := params.retention_cohort_period.getD 30
  let retention_metric := params.retention_metric.getD "login"
  let cutoff_date := now - cohort_period * minutesPerDay
  let recent_users ← selectUsersWhere (fun u => decide (cutoff_date ≤ u.registration_date))
  let older_users ← selectUsersWhere (fun u => decide (u.registration_date < cutoff_date))
  let sessions ← selectSessions
  pure (retentionCore cohort_period retention_metric recent_users older_users
    sessions cutoff_date)

structure PageInteractionData where
  total_views : ℕ
  total_time_spent : ℚ
  avg_time_spent : ℚ
  unique_sessions : ℕ
deriving DecidableEq

structure PageInteractionsReport where
  analysis_period_days : ℤ
  interaction_metric : String
  page_interactions : List (String × PageInteractionData)
  most_engaging_page : Option String
  most_viewed_page : Option String
deriving DecidableEq

def pageInteractionsBase (views : List PageView) : List (String × ℕ × ℚ × List ℤ) :=
  views.foldl (fun acc pv =>
    match acc.find? (fun kv => decide (kv.1 = pv.page_type)) with
    | some _ => acc.map (fun kv =>
        if kv.1 = pv.page_type
        then (kv.1, (kv.2.1 + 1, kv.2.2.1 + pv.time_spent_seconds,
          setInsert kv.2.2.2 pv.session_id))
        else kv)
    | none => acc ++ [(pv.page_type, (1, pv.time_spent_seconds, [pv.session_id]))]) []

def pageFillAll : List (String × ℕ × ℚ × List ℤ) →
    Except String (List (String × PageInteractionData))
  | [] => Except.ok []
  | kv :: rest => do
    let avg ← sdiv kv.2.2.1 ((max (kv.2.1 : ℤ) 1 : ℤ) : ℚ)
    let tail ← pageFillAll rest
    Except.ok ((kv.1,
      { total_views := kv.2.1
        total_time_spent := round2 kv.2.2.1
        avg_time_spent := round2 avg
        unique_sessions := kv.2.2.2.length }) :: tail)

def analyze_page_interactions (params : Params) (now : ℤ) :
    DBOp (Except String PageInteractionsReport) := do
  let page_type := params.page_type
  let interaction_metric := params.interaction_metric.getD "time_spent"
  let time_period := params.time_period.getD 30
  let cutoff_date := now - time_period * minutesPerDay
  let views ← selectPageViewsWhere (fun pv =>
    decide (cutoff_date ≤ pv.timestamp)
      && (if optStrTruthy page_type then decide (pv.page_type = page_type.getD "") else true))
  pure (do
    let filled ← pageFillAll (pageInteractionsBase views)
    Except.ok
      { analysis_period_days := time_period
        interaction_metric := interaction_metric
        page_interactions := filled
        most_engaging_page :=
          (pymax (fun kv : String × PageInteractionData => kv.2.avg_time_spent) filled).map
            Prod.fst
        most_viewed_page :=
          (pymax (fun kv : String × PageInteractionData => kv.2.total_views) filled).map
            Prod.fst })

structure DeviceBehaviorData where
  total_sessions : ℕ
  total_duration : ℚ
  total_pages : ℤ
  avg_duration : ℚ
  avg_pages_per_session : ℚ
  unique_users : ℕ
deriving DecidableEq

structure DeviceBehaviorReport where
  device_comparison : String
  behavior_metric : String
  device_analysis : List (String × DeviceBehaviorData)
  most_used_device : Option String
  highest_engagement_device : Option String
deriving DecidableEq

def deviceBehaviorBase (sessions : List UserSession) :
    List (String × ℕ × ℚ × ℤ × List ℤ) :=
  sessions.foldl (fun acc s =>
    match acc.find? (fun kv => decide (kv.1 = s.device_type)) with
    | some _ => acc.map (fun kv =>
        if kv.1 = s.device_type
        then (kv.1, (kv.2.1 + 1, kv.2.2.1 + s.session_duration_minutes,
          kv.2.2.2.1 + s.pages_viewed, setInsert kv.2.2.2.2 s.user_id))
        else kv)
    | none => acc ++ [(s.device_type,
        (1, s.session_duration_minutes, s.pages_viewed, [s.user_id]))]) []

def deviceFillAll : List (String × ℕ × ℚ × ℤ × List ℤ) →
    Except String (List (String × DeviceBehaviorData))
  | [] => Except.ok []
  | kv :: rest => do
    let ad ← sdiv kv.2.2.1 ((max (kv.2.1 : ℤ) 1 : ℤ) : ℚ)
    let ap ← sdiv ((kv.2.2.2.1 : ℤ) : ℚ) ((max (kv.2.1 : ℤ) 1 : ℤ) : ℚ)
    let tail ← deviceFillAll rest
    Except.ok ((kv.1,
      { total_sessions := kv.2.1
        total_duration := kv.2.2.1
        total_pages := kv.2.2.2.1
        avg_duration := round2 ad
        avg_pages_per_session := round2 ap
        unique_users := kv.2.2.2.2.length }) :: tail)

def get_device_behavior (params : Params) : DBOp (Except String DeviceBehaviorReport) := do
  let device_comparison := params.device_comparison.getD "all"
  let behavior_metric := params.behavior_metric.getD "session_duration"
  let sessions ← selectSessions
  pure (do
    let filled ← deviceFillAll (deviceBehaviorBase sessions)
    Except.ok
      { device_comparison := device_comparison
        behavior_metric := behavior_metric
        device_analysis := filled
        most_used_device :=
          (pymax (fun kv : String × DeviceBehaviorData => kv.2.total_sessions) filled).map
            Prod.fst
        highest_engagement_device :=
          (pymax (fun kv : String × DeviceBehaviorData => kv.2.avg_duration) filled).map
            Prod.fst })


/-! ## Query routing of the agents

The small regular expressions of the source are modelled directly: a
leftmost scan for a digit run, optional whitespace and a unit word, and a
leftmost scan for the word user, whitespace and a digit run. -/

def digitsVal (l : List Char) : ℕ := l.foldl (fun n c => n * 10 + (c.toNat - 48)) 0

def matchPeriodAt (l : List Char) : Option (ℕ × String) :=
  let ds := l.takeWhile Char.isDigit
  if ds.isEmpty then none
  else
    let rest := (l.drop ds.length).dropWhile Char.isWhitespace
    if rest.take 3 = ['d', 'a', 'y'] then some (digitsVal ds, "day")
    else if rest.take 4 = ['w', 'e', 'e', 'k'] then some (digitsVal ds, "week")
    else if rest.take 5 = ['m', 'o', 'n', 't', 'h'] then some (digitsVal ds, "month")
    else none

def searchPeriod : List Char → Option (ℕ × String)
  | [] => none
  | c :: cs =>
    match matchPeriodAt (c :: cs) with
    | some r => some r
    | none => searchPeriod cs

/-- Time-period extraction of _generate_revenue_report_from_query. -/
def extract_time_period (query : String) : ℤ :=
  match searchPeriod (strLower query).data with
  | none => 30
  | some (n, unit) =>
    if unit = "week" then (n : ℤ) * 7
    else if unit = "month" then (n : ℤ) * 30
    else (n : ℤ)

def matchUserIdAt (l : List Char) : Option ℕ :=
  if l.take 4 = ['u', 's', 'e', 'r'] then
    let rest := l.drop 4
    let sp := rest.takeWhile Char.isWhitespace
    if sp.isEmpty then none
    else
      let ds := (rest.drop sp.length).takeWhile Char.isDigit
      if ds.isEmpty then none else some (digitsVal ds)
  else none

def searchUserId : List Char → Option ℕ
  | [] => none
  | c :: cs =>
    match matchUserIdAt (c :: cs) with
    | some r => some r
    | none => searchUserId cs

/-- The heterogeneous result dict of the financial agent. -/
inductive FinResult where
  | revenue : RevenueReport → FinResult
  | profit : ProfitReport → FinResult
  | kpis : KpiReport → FinResult
  | payments : PaymentReport → FinResult
  | ltv : LtvReport → FinResult
  | forecast : ErrorOr ForecastReport → FinResult
  | discount : ErrorOr DiscountReport → FinResult
  | profitability : ProfitabilityReport → FinResult
  | cohort : CohortReport → FinResult
  | summary : FinancialSummary → FinResult
  | errorDict : String → FinResult
deriving DecidableEq

/-- The heterogeneous result dict of the user behavior agent. -/
inductive UbResult where
  | behavior : ErrorOr UserBehaviorReport → UbResult
  | journey : ErrorOr JourneyResult → UbResult
  | journeySamples : String → List (ErrorOr JourneyResult) → UbResult
  | sessions : SessionPatternsReport → UbResult
  | engagement : EngagementReport → UbResult
  | message : String → UbResult
  | segmentation : SegmentationReport → UbResult
  | retention : RetentionReport → UbResult
  | pageInteractions : PageInteractionsReport → UbResult
  | deviceBehavior : DeviceBehaviorReport → UbResult
  | errorDict : String → UbResult
deriving DecidableEq

/-- Routing body of FinancialReportingAgent.process_query, before the
enclosing try/except. -/
def fin_process_query_body (query : String) (now : ℤ) : DBOp (Except String FinResult) :=
  let ql := strLower query
  if strContains ql "revenue" && strContains ql "report" then do
    let r ← generate_revenue_report (Params.timed (extract_time_period query)) now
    pure (r.map FinResult.revenue)
  else if strContains ql "profit" then do
    let r ← analyze_profit_margins Params.empty now
    pure (r.map FinResult.profit)
  else if strContains ql "kpi" || strContains ql "financial" then do
    let r ← get_financial_kpis Params.empty now
    pure (r.map FinResult.kpis)
  else if strContains ql "payment" then do
    let r ← analyze_payment_methods Params.empty now
    pure (r.map FinResult.payments)
  else if strContains ql "ltv" || strContains ql "lifetime" then do
    let r ← calculate_customer_ltv Params.empty
    pure (r.map FinResult.ltv)
  else if strContains ql "forecast" then do
    let r ← generate_sales_forecast Params.empty now
    pure (r.map FinResult.forecast)
  else if strContains ql "discount" then do
    let r ← analyze_discount_impact Params.empty now
    pure (r.map FinResult.discount)
  else do
    let r ← generate_financial_summary Params.empty now
    pure (r.map FinResult.summary)

/-- The try/except wrapper shared by both process_query implementations:
a raised exception is caught and stringified into an error dict. -/
def catch_and_stringify {ρ : Type} (mkErr : String → ρ) (pre : String)
    (body : DBOp (Except String ρ)) : DBOp ρ :=
  fun db =>
    match body db with
    | (Except.ok r, db2) => (r, db2)
    | (Except.error e, db2) => (mkErr (pre ++ e), db2)

def fin_process_query (query : String) (now : ℤ) : DBOp FinResult :=
  catch_and_stringify FinResult.errorDict "Financial Reporting Agent error: "
    (fin_process_query_body query now)

/-- Left-to-right effectful map, as the Python loops over rows. -/
def mapDB {α β : Type} (f : α → DBOp β) : List α → DBOp (List β)
  | [] => pure []
  | a :: rest => do
    let b ← f a
    let tail ← mapDB f rest
    pure (b :: tail)

/-- Sequencing of the loop bodies: the first raised exception propagates. -/
def seqExcept {α : Type} : List (Except String α) → Except String (List α)
  | [] => Except.ok []
  | e :: rest => do
    let v ← e
    let tail ← seqExcept rest
    Except.ok (v :: tail)

/-- _analyze_user_journey_from_query. -/
def ub_journey_from_query (query : String) : DBOp (Except String UbResult) := do
  match searchUserId (strLower query).data with
  | some uid => do
    let r ← get_user_journey { Params.empty with user_id := some (uid : ℤ) }
    pure (r.map UbResult.journey)
  | none => do
    let all ← selectSessions
    let recent := (all.mergeSort (fun a b => decide (b.session_start ≤ a.session_start))).take 5
    let rs ← mapDB (fun s => get_user_journey { Params.empty with session_id := some s.id })
      recent
    pure ((seqExcept rs).map (UbResult.journeySamples "General user journey patterns"))

/-- _analyze_general_behavior. -/
def ub_general_behavior (query : String) (now : ℤ) : DBOp (Except String UbResult) := do
  match searchUserId (strLower query).data with
  | some uid => do
    let r ← analyze_user_behavior { Params.empty with user_id := some (uid : ℤ) } now
    pure (r.map UbResult.behavior)
  | none => do
    let r ← analyze_engagement_metrics Params.empty now
    pure (r.map UbResult.engagement)

/-- Routing body of UserBehaviorAgent.process_query, before the
enclosing try/except. -/
def ub_process_query_body (query : String) (now : ℤ) : DBOp (Except String UbResult) :=
  let ql := strLower query
  if strContains ql "journey" then ub_journey_from_query query
  else if strContains ql "session" then do
    let r ← analyze_session_patterns Params.empty now
    pure (r.map UbResult.sessions)
  else if strContains ql "engagement" then do
    let r ← analyze_engagement_metrics Params.empty now
    pure (r.map UbResult.engagement)
  else if strContains ql "retention" then
    pure (Except.ok (UbResult.message "Retention analysis feature coming soon"))
  else if strContains ql "device" then do
    let r ← analyze_session_patterns Params.empty now
    pure (r.map UbResult.sessions)
  else if strContains ql "segment" then do
    let r ← get_user_segmentation Params.empty
    pure (r.map UbResult.segmentation)
  else ub_general_behavior query now

def ub_process_query (query : String) (now : ℤ) : DBOp UbResult :=
  catch_and_stringify UbResult.errorDict "User Behavior Agent error: "
    (ub_process_query_body query now)

/-- BaseAgent.call_tool over a tool registry: an unknown tool name and a
raised exception both become error dicts, built here by mkErr. -/
def call_tool {ρ : Type} (mkErr : String → ρ) (agent_name : String)
    (tools : List (String × (Params → DBOp (Except String ρ))))
    (tool_name : String) (parameters : Params) : DBOp ρ :=
  fun db =>
    match tools.find? (fun t => decide (t.1 = tool_name)) with
    | none => (mkErr ("Tool " ++ tool_name ++ " not available for agent " ++ agent_name), db)
    | some t =>
      match t.2 parameters db with
      | (Except.ok r, db2) => (r, db2)
      | (Except.error e, db2) => (mkErr ("Error calling tool " ++ tool_name ++ ": " ++ e), db2)

/-- The registered tool dict of the financial agent. -/
def financial_tools (now : ℤ) : List (String × (Params → DBOp (Except String FinResult))) :=
  [("generate_revenue_report", fun p => do
      let r ← generate_revenue_report p now; pure (r.map FinResult.revenue)),
   ("analyze_profit_margins", fun p => do
      let r ← analyze_profit_margins p now; pure (r.map FinResult.profit)),
   ("get_financial_kpis", fun p => do
      let r ← get_financial_kpis p now; pure (r.map FinResult.kpis)),
   ("analyze_payment_methods", fun p => do
      let r ← analyze_payment_methods p now; pure (r.map FinResult.payments)),
   ("calculate_customer_ltv", fun p => do
      let r ← calculate_customer_ltv p; pure (r.map FinResult.ltv)),
   ("generate_sales_forecast", fun p => do
      let r ← generate_sales_forecast p now; pure (r.map FinResult.forecast)),
   ("analyze_product_profitability", fun p => do
      let r ← analyze_product_profitability p now; pure (r.map FinResult.profitability)),
   ("get_cohort_revenue", fun p => do
      let r ← get_cohort_revenue p; pure (r.map FinResult.cohort)),
   ("analyze_discount_impact", fun p => do
      let r ← analyze_discount_impact p now; pure (r.map FinResult.discount)),
   ("generate_financial_summary", fun p => do
      let r ← generate_financial_summary p now; pure (r.map FinResult.summary))]

/-- The registered tool dict of the user behavior agent. -/
def ub_tools (now : ℤ) : List (String × (Params → DBOp (Except String UbResult))) :=
  [("analyze_user_behavior", fun p => do
      let r ← analyze_user_behavior p now; pure (r.map UbResult.behavior)),
   ("get_user_journey", fun p => do
      let r ← get_user_journey p; pure (r.map UbResult.journey)),
   ("analyze_session_patterns", fun p => do
      let r ← analyze_session_patterns p now; pure (r.map UbResult.sessions)),
   ("get_user_segmentation", fun p => do
      let r ← get_user_segmentation p; pure (r.map UbResult.segmentation)),
   ("analyze_engagement_metrics", fun p => do
      let r ← analyze_engagement_metrics p now; pure (r.map UbResult.engagement)),
   ("get_user_retention", fun p => do
      let r ← get_user_retention p now; pure (r.map UbResult.retention)),
   ("analyze_page_interactions", fun p => do
      let r ← analyze_page_interactions p now; pure (r.map UbResult.pageInteractions)),
   ("get_device_behavior", fun p => do
      let r ← get_device_behavior p; pure (r.map UbResult.deviceBehavior))]

/-! ## Theorems for error handling of the agent layer -/

/-- C3: call_tool returns an error dict naming the missing tool when the
name is not registered, stringifies any exception of the invoked tool
into an error dict, never letting it propagate; and both process_query
implementations are the same catch-and-stringify wrapper around their
routing bodies, so a raised exception becomes an error dict there too. -/
theorem call_tool_catches {ρ : Type} (mkErr : String → ρ) (agent_name : String)
    (tools : List (String × (Params → DBOp (Except String ρ))))
    (tool_name : String) (parameters : Params) (db : DB) :
    (tools.find? (fun t => decide (t.1 = tool_name)) = none →
      call_tool mkErr agent_name tools tool_name parameters db
        = (mkErr ("Tool " ++ tool_name ++ " not available for agent " ++ agent_name), db))
    ∧ (∀ t e db2, tools.find? (fun t => decide (t.1 = tool_name)) = some t →
        t.2 parameters db = (Except.error e, db2) →
        call_tool mkErr agent_name tools tool_name parameters db
          = (mkErr ("Error calling tool " ++ tool_name ++ ": " ++ e), db2))
    ∧ (∀ (pre : String) (body : DBOp (Except String ρ)) (e : String) (db2 : DB),
        body db = (Except.error e, db2) →
        catch_and_stringify mkErr pre body db = (mkErr (pre ++ e), db2))
    ∧ (∀ (q : String) (now : ℤ),
        fin_process_query q now
          = catch_and_stringify FinResult.errorDict "Financial Reporting Agent error: "
              (fin_process_query_body q now))
    ∧ (∀ (q : String) (now : ℤ),
        ub_process_query q now
          = catch_and_stringify UbResult.errorDict "User Behavior Agent error: "
              (ub_process_query_body q now)) := by
  refine ⟨?_, ?_, ?_, fun _ _ => rfl, fun _ _ => rfl⟩
  · intro h
    simp only [call_tool, h]
  · intro t e db2 hf hb
    simp only [call_tool, hf, hb]
  · intro pre body e db2 hb
    simp only [catch_and_stringify, hb]

def failing_tool : Params → DBOp (Except String String) :=
  fun _ => fun db => (Except.error "kaboom", db)

def failing_body : DBOp (Except String String) :=
  fun db => (Except.error "kaboom", db)

/-- Closed instance of the error-handling theorem: a missing tool name, a
raising tool and a raising body, each turned into the error payload. -/
theorem call_tool_catches_witness :
    call_tool (fun s => s) "Financial Analyst" [("boom", failing_tool)] "missing"
        Params.empty emptyDB
      = ("Tool missing not available for agent Financial Analyst", emptyDB)
    ∧ call_tool (fun s => s) "Financial Analyst" [("boom", failing_tool)] "boom"
        Params.empty emptyDB
      = ("Error calling tool boom: kaboom", emptyDB)
    ∧ catch_and_stringify (fun s => s) "User Behavior Agent error: " failing_body emptyDB
      = ("User Behavior Agent error: kaboom", emptyDB) := by
  refine ⟨?_, ?_, ?_⟩
  · have h := (call_tool_catches (fun s => s) "Financial Analyst" [("boom", failing_tool)]
      "missing" Params.empty emptyDB).1 (by rfl)
    simpa using h
  · have h := (call_tool_catches (fun s => s) "Financial Analyst" [("boom", failing_tool)]
      "boom" Params.empty emptyDB).2.1 ("boom", failing_tool) "kaboom" emptyDB (by rfl) rfl
    simpa using h
  · exact (call_tool_catches (fun s => s) "x" [] "t" Params.empty emptyDB).2.2.1
      "User Behavior Agent error: " failing_body "kaboom" emptyDB rfl


/-! ## Frame property: the read layer never changes the database -/

theorem ep_get_user_state (user_id : ℤ) (db : DB) : (ep_get_user user_id db).2 = db := by
  simp only [ep_get_user, crud_get_user, selectUsers, DBOp_bind, DBOp_pure]
  cases db.users.find? (fun u => decide (u.id = user_id)) <;> rfl

theorem ep_get_user_behavior_state (user_id : ℤ) (db : DB) :
    (ep_get_user_behavior user_id db).2 = db := by
  simp only [ep_get_user_behavior, crud_get_user_behavior_summary, selectUsers,
    selectSessionsWhere, selectPurchasesWhere, selectProducts, DBOp_bind, DBOp_pure]
  cases db.users.find? (fun u => decide (u.id = user_id)) <;> rfl

theorem ep_get_product_state (product_id : ℤ) (db : DB) :
    (ep_get_product product_id db).2 = db := by
  simp only [ep_get_product, crud_get_product, selectProducts, DBOp_bind, DBOp_pure]
  cases db.products.find? (fun p => decide (p.id = product_id)) <;> rfl

theorem ep_get_product_analytics_state (product_id : ℤ) (db : DB) :
    (ep_get_product_analytics product_id db).2 = db := by
  simp only [ep_get_product_analytics, crud_get_product_analytics, selectProducts,
    selectPageViewsWhere, selectPurchasesWhere, selectReviewsWhere, DBOp_bind, DBOp_pure]
  cases productAnalyticsCore db.products
      (db.page_views.filter (fun pv => decide (pv.product_id = some product_id)))
      (db.purchases.filter (fun p => decide (p.product_id = product_id)))
      (db.reviews.filter (fun r => decide (r.product_id = product_id))) product_id <;> rfl

theorem analyze_user_behavior_state (params : Params) (now : ℤ) (db : DB) :
    (analyze_user_behavior params now db).2 = db := by
  simp only [analyze_user_behavior]
  by_cases hc : optIntTruthy params.user_id = false
  · rw [if_pos hc]
    rfl
  · rw [if_neg hc]
    simp only [selectUsers, selectSessions, selectSessionsWhere, selectPurchasesWhere,
      selectPageViewsWhere, DBOp_bind, DBOp_pure]
    cases db.users.find? (fun u => decide (u.id = params.user_id.getD 0)) <;> rfl

theorem get_user_journey_state (params : Params) (db : DB) :
    (get_user_journey params db).2 = db := by
  simp only [get_user_journey]
  by_cases hs : optIntTruthy params.session_id = true
  · rw [if_pos hs]
    simp only [selectSessions, selectPageViewsWhere, selectProducts, DBOp_bind, DBOp_pure]
    cases db.user_sessions.find? (fun s => decide (s.id = params.session_id.getD 0)) <;> rfl
  · rw [if_neg hs]
    by_cases hu : optIntTruthy params.user_id = true
    · rw [if_pos hu]
      rfl
    · rw [if_neg hu]
      rfl

theorem mapDB_state {α β : Type} (f : α → DBOp β) (l : List α)
    (h : ∀ a db, (f a db).2 = db) (db : DB) : (mapDB f l db).2 = db := by
  induction l generalizing db with
  | nil => rfl
  | cons a rest ih =>
    simp only [mapDB, DBOp_bind, DBOp_pure]
    rw [ih (f a db).2, h a db]

theorem ub_journey_from_query_state (query : String) (db : DB) :
    (ub_journey_from_query query db).2 = db := by
  simp only [ub_journey_from_query, selectSessions, DBOp_bind, DBOp_pure]
  cases searchUserId (strLower query).data with
  | some uid =>
    simp only [DBOp_bind, DBOp_pure]
    rw [get_user_journey_state]
  | none =>
    simp only [DBOp_bind, DBOp_pure]
    rw [mapDB_state _ _ (fun a db => get_user_journey_state _ db)]
    rfl

theorem ub_general_behavior_state (query : String) (now : ℤ) (db : DB) :
    (ub_general_behavior query now db).2 = db := by
  simp only [ub_general_behavior, DBOp_bind, DBOp_pure]
  cases searchUserId (strLower query).data with
  | some uid =>
    simp only [DBOp_bind, DBOp_pure]
    rw [analyze_user_behavior_state]
  | none => rfl

theorem fin_process_query_body_state (query : String) (now : ℤ) (db : DB) :
    (fin_process_query_body query now db).2 = db := by
  simp only [fin_process_query_body]
  by_cases h1 : (strContains (strLower query) "revenue" && strContains (strLower query) "report") = true
  · rw [if_pos h1]; rfl
  · rw [if_neg h1]
    by_cases h2 : strContains (strLower query) "profit" = true
    · rw [if_pos h2]; rfl
    · rw [if_neg h2]
      by_cases h3 : (strContains (strLower query) "kpi" || strContains (strLower query) "financial") = true
      · rw [if_pos h3]; rfl
      · rw [if_neg h3]
        by_cases h4 : strContains (strLower query) "payment" = true
        · rw [if_pos h4]; rfl
        · rw [if_neg h4]
          by_cases h5 : (strContains (strLower query) "ltv" || strContains (strLower query) "lifetime") = true
          · rw [if_pos h5]; rfl
          · rw [if_neg h5]
            by_cases h6 : strContains (strLower query) "forecast" = true
            · rw [if_pos h6]; rfl
            · rw [if_neg h6]
              by_cases h7 : strContains (strLower query) "discount" = true
              · rw [if_pos h7]; rfl
              · rw [if_neg h7]; rfl

theorem ub_process_query_body_state (query : String) (now : ℤ) (db : DB) :
    (ub_process_query_body query now db).2 = db := by
  simp only [ub_process_query_body]
  by_cases h1 : strContains (strLower query) "journey" = true
  · rw [if_pos h1]
    exact ub_journey_from_query_state query db
  · rw [if_neg h1]
    by_cases h2 : strContains (strLower query) "session" = true
    · rw [if_pos h2]; rfl
    · rw [if_neg h2]
      by_cases h3 : strContains (strLower query) "engagement" = true
      · rw [if_pos h3]; rfl
      · rw [if_neg h3]
        by_cases h4 : strContains (strLower query) "retention" = true
        · rw [if_pos h4]; rfl
        · rw [if_neg h4]
          by_cases h5 : strContains (strLower query) "device" = true
          · rw [if_pos h5]; rfl
          · rw [if_neg h5]
            by_cases h6 : strContains (strLower query) "segment" = true
            · rw [if_pos h6]; rfl
            · rw [if_neg h6]
              exact ub_general_behavior_state query now db

theorem catch_state {ρ : Type} (mkErr : String → ρ) (pre : String)
    (body : DBOp (Except String ρ)) (db : DB) (h : (body db).2 = db) :
    (catch_and_stringify mkErr pre body db).2 = db := by
  rw [catch_and_stringify]
  rcases hb : body db with ⟨r, db2⟩
  have hdb : db2 = db := by rw [hb] at h; exact h
  cases r <;> simpa using hdb

theorem financial_tools_state (now : ℤ) (t : String × (Params → DBOp (Except String FinResult)))
    (ht : t ∈ financial_tools now) (p : Params) (db : DB) : (t.2 p db).2 = db := by
  simp only [financial_tools, List.mem_cons, List.not_mem_nil, or_false] at ht
  rcases ht with h | h | h | h | h | h | h | h | h | h <;> subst h <;> rfl

theorem ub_tools_state (now : ℤ) (t : String × (Params → DBOp (Except String UbResult)))
    (ht : t ∈ ub_tools now) (p : Params) (db : DB) : (t.2 p db).2 = db := by
  simp only [ub_tools, List.mem_cons, List.not_mem_nil, or_false] at ht
  rcases ht with h | h | h | h | h | h | h | h <;> subst h
  · simp only [DBOp_bind, DBOp_pure]
    rw [analyze_user_behavior_state]
  · simp only [DBOp_bind, DBOp_pure]
    rw [get_user_journey_state]
  · rfl
  · rfl
  · rfl
  · rfl
  · rfl
  · rfl

theorem call_tool_state {ρ : Type} (mkErr : String → ρ) (agent_name : String)
    (tools : List (String × (Params → DBOp (Except String ρ))))
    (tool_name : String) (p : Params) (db : DB)
    (h : ∀ t ∈ tools, ∀ db, ((t.2 p) db).2 = db) :
    (call_tool mkErr agent_name tools tool_name p db).2 = db := by
  rw [call_tool]
  cases hf : tools.find? (fun t => decide (t.1 = tool_name)) with
  | none => rfl
  | some t =>
    have ht := h t (List.mem_of_find?_eq_some hf) db
    rcases hb : t.2 p db with ⟨r, db2⟩
    have hdb : db2 = db := by rw [hb] at ht; exact ht
    cases r <;> simp only [hb] <;> simp [hdb]


/-- One invocation of a REST GET handler or of the agent layer, with its
arguments: the observable read surface of the system. -/
inductive ReadOperation where
  | usersList (skip limit : ℕ)
  | userDetail (user_id : ℤ)
  | userBehavior (user_id : ℤ)
  | productsList (skip limit : ℕ)
  | productDetail (product_id : ℤ)
  | productAnalytics (product_id : ℤ)
  | sessionsList (user_id : Option ℤ) (skip limit : ℕ)
  | purchasesList (user_id : Option ℤ) (skip limit : ℕ)
  | reviewsList (product_id : Option ℤ) (skip limit : ℕ)
  | pageViewsList (session_id : Option ℤ) (skip limit : ℕ)
  | topProducts (limit : ℕ)
  | deviceUsage
  | finTool (tool_name : String) (params : Params) (now : ℤ)
  | finQuery (query : String) (now : ℤ)
  | ubTool (tool_name : String) (params : Params) (now : ℤ)
  | ubQuery (query : String) (now : ℤ)

/-- The database state after running a read operation. -/
def run_read : ReadOperation → DB → DB
  | ReadOperation.usersList skip limit, db => (ep_get_users skip limit db).2
  | ReadOperation.userDetail uid, db => (ep_get_user uid db).2
  | ReadOperation.userBehavior uid, db => (ep_get_user_behavior uid db).2
  | ReadOperation.productsList skip limit, db => (ep_get_products skip limit db).2
  | ReadOperation.productDetail pid, db => (ep_get_product pid db).2
  | ReadOperation.productAnalytics pid, db => (ep_get_product_analytics pid db).2
  | ReadOperation.sessionsList uid skip limit, db => (ep_get_user_sessions uid skip limit db).2
  | ReadOperation.purchasesList uid skip limit, db => (ep_get_purchases uid skip limit db).2
  | ReadOperation.reviewsList pid skip limit, db => (ep_get_reviews pid skip limit db).2
  | ReadOperation.pageViewsList sid skip limit, db => (ep_get_page_views sid skip limit db).2
  | ReadOperation.topProducts limit, db => (ep_get_top_products limit db).2
  | ReadOperation.deviceUsage, db => (ep_get_device_usage db).2
  | ReadOperation.finTool name p now, db =>
      (call_tool FinResult.errorDict "Financial Analyst" (financial_tools now) name p db).2
  | ReadOperation.finQuery q now, db => (fin_process_query q now db).2
  | ReadOperation.ubTool name p now, db =>
      (call_tool UbResult.errorDict "User Behavior Analyst" (ub_tools now) name p db).2
  | ReadOperation.ubQuery q now, db => (ub_process_query q now db).2

theorem run_read_eq (op : ReadOperation) (db : DB) : run_read op db = db := by
  cases op with
  | usersList skip limit => rfl
  | userDetail uid => exact ep_get_user_state uid db
  | userBehavior uid => exact ep_get_user_behavior_state uid db
  | productsList skip limit => rfl
  | productDetail pid => exact ep_get_product_state pid db
  | productAnalytics pid => exact ep_get_product_analytics_state pid db
  | sessionsList uid skip limit => rfl
  | purchasesList uid skip limit => rfl
  | reviewsList pid skip limit => rfl
  | pageViewsList sid skip limit => rfl
  | topProducts limit => rfl
  | deviceUsage => rfl
  | finTool name p now =>
    exact call_tool_state _ _ _ _ _ _ (fun t ht db => financial_tools_state now t ht p db)
  | finQuery q now =>
    exact catch_state _ _ _ _ (fin_process_query_body_state q now db)
  | ubTool name p now =>
    exact call_tool_state _ _ _ _ _ _ (fun t ht db => ub_tools_state now t ht p db)
  | ubQuery q now =>
    exact catch_state _ _ _ _ (ub_process_query_body_state q now db)


/-- C7: no REST GET handler and no agent tool or query modifies the
database: after any read operation on any database state, every row of
every table is unchanged (the whole state is equal to the initial one). -/
theorem read_layer_preserves_db (op : ReadOperation) (db : DB) : run_read op db = db :=
  run_read_eq op db

/-! ## Seed script (backend/database/seed_data.py)

The random module is an abstract stream of naturals with a position;
randint and choice consume one draw, uniform is abstracted to a rational
grid over its interval. Row ids follow the autoincrement order of the
inserts. -/

structure RandStream where
  stream : ℕ → ℕ
  pos : ℕ

def nextNat (r : RandStream) : ℕ × RandStream := (r.stream r.pos, ⟨r.stream, r.pos + 1⟩)

/-- random.randint (both bounds inclusive). -/
def randint (a b : ℤ) (r : RandStream) : ℤ × RandStream :=
  let v := nextNat r
  (a + ((v.1 % (b - a + 1).toNat : ℕ) : ℤ), v.2)

/-- random.choice over a nonempty list (with a default for the shape). -/
def pychoice {α : Type} (l : List α) (d : α) (r : RandStream) : α × RandStream :=
  let v := nextNat r
  (l.getD (v.1 % l.length) d, v.2)

/-- random.uniform, abstracted to exact rationals in the interval. -/
def pyuniform (a b : ℚ) (r : RandStream) : ℚ × RandStream :=
  let v := nextNat r
  (a + ((v.1 % 1001 : ℕ) : ℚ) / 1000 * (b - a), v.2)

def seedNames : List String :=
  ["Alice Johnson", "Bob Smith", "Carol Davis", "David Wilson", "Eva Brown",
   "Frank Miller", "Grace Taylor", "Henry Anderson", "Ivy Chen", "Jack Williams"]

def seedLocations : List String :=
  ["New York", "Los Angeles", "Chicago", "Houston", "Phoenix",
   "Philadelphia", "San Antonio", "San Diego", "Dallas", "San Jose"]

def seedCategories : List String :=
  ["Electronics", "Clothing", "Books", "Home & Garden", "Sports",
   "Beauty", "Toys", "Automotive", "Health", "Food"]

def seedBrands : List String :=
  ["Apple", "Samsung", "Nike", "Adidas", "Sony", "LG", "HP", "Dell", "Amazon", "Google"]

def seedDevices : List String := ["mobile", "desktop", "tablet"]

def seedBrowsers : List String := ["Chrome", "Firefox", "Safari", "Edge"]

def seedPageTypes : List String := ["product", "category", "home", "cart", "checkout"]

def seedPaymentMethods : List String :=
  ["credit_card", "debit_card", "paypal", "apple_pay", "google_pay"]

def defaultProduct : Product := ⟨0, "", "", 0, "", 0, 0, ""⟩

def genUsers (now : ℤ) (r : RandStream) : List User × RandStream :=
  (List.range 100).foldl (fun acc i =>
    let nm := pychoice seedNames "" acc.2
    let age := randint 18 70 nm.2
    let g := pychoice ["M", "F", "Other"] "" age.2
    let loc := pychoice seedLocations "" g.2
    let d := randint 1 365 loc.2
    let prem := pychoice [true, false] false d.2
    (acc.1 ++ [{ id := (i : ℤ) + 1
                 email := "user" ++ toString (i + 1) ++ "@example.com"
                 name := nm.1 ++ " " ++ toString (i + 1)
                 age := age.1
                 gender := g.1
                 location := loc.1
                 registration_date := now - d.1 * minutesPerDay
                 is_premium := prem.1 }], prem.2)) ([], r)

def genProducts (r : RandStream) : List Product × RandStream :=
  (List.range 50).foldl (fun acc i =>
    let c := pychoice seedCategories "" acc.2
    let pr := pyuniform 10 1000 c.2
    let b := pychoice seedBrands "" pr.2
    let rt := pyuniform 1 5 b.2
    let st := randint 0 1000 rt.2
    let c2 := pychoice seedCategories "" st.2
    (acc.1 ++ [{ id := (i : ℤ) + 1
                 name := "Product " ++ toString (i + 1)
                 category := c.1
                 price := round2 pr.1
                 brand := b.1
                 rating := round1 rt.1
                 stock_quantity := st.1
                 description := "This is a great " ++ strLower c2.1
                   ++ " product with excellent features." }], c2.2)) ([], r)

def sessionStep (now : ℤ) (u : User) (acc : List UserSession × ℕ × RandStream) (_ : ℕ) :
    List UserSession × ℕ × RandStream :=
  let d := randint 0 30 acc.2.2
  let h := randint 0 23 d.2
  let m := randint 0 59 h.2
  let session_start := now - (d.1 * minutesPerDay + h.1 * 60 + m.1)
  let dur := randint 1 120 m.2
  let pg := randint 1 20 dur.2
  let dev := pychoice seedDevices "" pg.2
  let br := pychoice seedBrowsers "" dev.2
  (acc.1 ++ [{ id := (acc.2.1 : ℤ) + 1
               user_id := u.id
               session_start := session_start
               session_end := session_start + dur.1
               session_duration_minutes := ((dur.1 : ℤ) : ℚ)
               pages_viewed := pg.1
               device_type := dev.1
               browser := br.1 }], acc.2.1 + 1, br.2)

def genSessions (now : ℤ) (users : List User) (r : RandStream) : List UserSession × RandStream :=
  let res := users.foldl (fun acc u =>
    let n := randint 1 10 acc.2.2
    (List.range n.1.toNat).foldl (sessionStep now u) (acc.1, acc.2.1, n.2))
    (([], 0, r) : List UserSession × ℕ × RandStream)
  (res.1, res.2.2)

def pageViewStep (products : List Product) (s : UserSession)
    (acc : List PageView × ℕ × RandStream) (_ : ℕ) : List PageView × ℕ × RandStream :=
  let cond := pychoice [true, false] false acc.2.2
  let pid : Option ℤ × RandStream :=
    if cond.1 then
      let pr := pychoice products defaultProduct cond.2
      (some pr.1.id, pr.2)
    else (none, cond.2)
  let pt := pychoice seedPageTypes "" pid.2
  let toff := randint 0 (pyInt s.session_duration_minutes) pt.2
  let tsp := randint 10 300 toff.2
  (acc.1 ++ [{ id := (acc.2.1 : ℤ) + 1
               session_id := s.id
               product_id := pid.1
               page_type := pt.1
               timestamp := s.session_start + toff.1
               time_spent_seconds := ((tsp.1 : ℤ) : ℚ) }], acc.2.1 + 1, tsp.2)

def genPageViews (products : List Product) (sessions : List UserSession) (r : RandStream) :
    List PageView × RandStream :=
  let res := sessions.foldl (fun acc s =>
    (List.range s.pages_viewed.toNat).foldl (pageViewStep products s) acc)
    (([], 0, r) : List PageView × ℕ × RandStream)
  (res.1, res.2.2)

def purchaseStep (now : ℤ) (products : List Product) (u : User)
    (acc : List Purchase × ℕ × RandStream) (_ : ℕ) : List Purchase × ℕ × RandStream :=
  let product := pychoice products defaultProduct acc.2.2
  let qty := randint 1 3 product.2
  let cond := pychoice [true, false] false qty.2
  let discount : ℚ × RandStream :=
    if cond.1 then pyuniform 0 (3 / 10) cond.2 else ((0 : ℚ), cond.2)
  let d := randint 0 30 discount.2
  let pm := pychoice seedPaymentMethods "" d.2
  (acc.1 ++ [{ id := (acc.2.1 : ℤ) + 1
               user_id := u.id
               product_id := product.1.id
               quantity := qty.1
               total_amount := round2 (product.1.price * ((qty.1 : ℤ) : ℚ) * (1 - discount.1))
               purchase_date := now - d.1 * minutesPerDay
               payment_method := pm.1
               discount_applied := discount.1 }], acc.2.1 + 1, pm.2)

def genPurchases (now : ℤ) (users : List User) (products : List Product) (r : RandStream) :
    List Purchase × RandStream :=
  let res := users.foldl (fun acc u =>
    let n := randint 0 5 acc.2.2
    (List.range n.1.toNat).foldl (purchaseStep now products u) (acc.1, acc.2.1, n.2))
    (([], 0, r) : List Purchase × ℕ × RandStream)
  (res.1, res.2.2)

/-- One purchase of the review loop: a coin flip, and on success a review
whose rating is randint(1, 5). -/
def reviewStep (u : User) (acc : List Review × ℕ × RandStream) (p : Purchase) :
    List Review × ℕ × RandStream :=
  let cond := pychoice [true, false] false acc.2.2
  if cond.1 then
    let rating := randint 1 5 cond.2
    let g := pychoice [true, false] false rating.2
    let rec2 := pychoice [true, false] false g.2
    let dd := randint 1 14 rec2.2
    let hv := randint 0 50 dd.2
    (acc.1 ++ [{ id := (acc.2.1 : ℤ) + 1
                 user_id := u.id
                 product_id := p.product_id
                 rating := rating.1
                 review_text := "This product is " ++ (if g.1 then "great" else "okay")
                   ++ ". Would " ++ (if rec2.1 then "definitely" else "maybe")
                   ++ " recommend to others."
                 review_date := p.purchase_date + dd.1 * minutesPerDay
                 helpful_votes := hv.1 }], acc.2.1 + 1, hv.2)
  else (acc.1, acc.2.1, cond.2)

def genReviews (users : List User) (purchases : List Purchase) (r : RandStream) :
    List Review × RandStream :=
  let res := users.foldl (fun acc u =>
    (purchases.filter (fun p => decide (p.user_id = u.id))).foldl (reviewStep u) acc)
    (([], 0, r) : List Review × ℕ × RandStream)
  (res.1, res.2.2)

/-- create_sample_data: delete every row of every table, then insert the
generated users, products, sessions, page views, purchases and reviews. -/
def create_sample_data (now : ℤ) (r : RandStream) : DBOp Unit :=
  let u := genUsers now r
  let p := genProducts u.2
  let s := genSessions now u.1 p.2
  let v := genPageViews p.1 s.1 s.2
  let pu := genPurchases now u.1 p.1 v.2
  let re := genReviews u.1 pu.1 pu.2
  replaceAll u.1 p.1 s.1 v.1 pu.1 re.1

/-- The states of the system: an initially created empty database, a run
of the seed script, or any read operation. -/
inductive Reachable : DB → Prop where
  | empty : Reachable emptyDB
  | seeded (now : ℤ) (r : RandStream) (db : DB) :
      Reachable db → Reachable ((create_sample_data now r db).2)
  | observed (op : ReadOperation) (db : DB) :
      Reachable db → Reachable (run_read op db)

theorem randint_bounds (a b : ℤ) (r : RandStream) (h : a ≤ b) :
    a ≤ (randint a b r).1 ∧ (randint a b r).1 ≤ b := by
  have hn : 0 < (b - a + 1).toNat := by omega
  have hlt : (nextNat r).1 % (b - a + 1).toNat < (b - a + 1).toNat :=
    Nat.mod_lt _ hn
  simp only [randint]
  omega

theorem foldl_inv {σ α : Type} (P : σ → Prop) (f : σ → α → σ)
    (hstep : ∀ s a, P s → P (f s a)) :
    ∀ (l : List α) (s : σ), P s → P (l.foldl f s) := by
  intro l
  induction l with
  | nil => intro s h; exact h
  | cons a t ih => intro s h; exact ih _ (hstep s a h)

theorem reviewStep_rating (u : User) (s : List Review × ℕ × RandStream) (p : Purchase)
    (hs : ∀ rev ∈ s.1, 1 ≤ rev.rating ∧ rev.rating ≤ 5) :
    ∀ rev ∈ (reviewStep u s p).1, 1 ≤ rev.rating ∧ rev.rating ≤ 5 := by
  intro rev hrev
  rw [reviewStep] at hrev
  by_cases hc : (pychoice [true, false] false s.2.2).1 = true
  · rw [if_pos hc] at hrev
    rcases List.mem_append.mp hrev with hold | hnew
    · exact hs rev hold
    · have hb := randint_bounds 1 5 (pychoice [true, false] false s.2.2).2 (by norm_num)
      rcases List.mem_singleton.mp hnew with rfl
      exact hb
  · rw [if_neg hc] at hrev
    exact hs rev hrev

theorem genReviews_rating (users : List User) (purchases : List Purchase) (r : RandStream) :
    ∀ rev ∈ (genReviews users purchases r).1, 1 ≤ rev.rating ∧ rev.rating ≤ 5 := by
  have h := foldl_inv
    (fun s : List Review × ℕ × RandStream => ∀ rev ∈ s.1, 1 ≤ rev.rating ∧ rev.rating ≤ 5)
    (fun acc u => (purchases.filter (fun p => decide (p.user_id = u.id))).foldl
      (reviewStep u) acc)
    (fun s u hs => foldl_inv
      (fun s : List Review × ℕ × RandStream => ∀ rev ∈ s.1, 1 ≤ rev.rating ∧ rev.rating ≤ 5)
      (reviewStep u) (fun s p hp => reviewStep_rating u s p hp) _ s hs)
    users ([], 0, r) (by intro rev hrev; cases hrev)
  intro rev hrev
  exact h rev hrev

set_option maxRecDepth 4000 in
theorem create_sample_data_reviews (now : ℤ) (r : RandStream) (db : DB) :
    ((create_sample_data now r) db).2.reviews
      = (genReviews (genUsers now r).1
          (genPurchases now (genUsers now r).1 (genProducts (genUsers now r).2).1
            (genPageViews (genProducts (genUsers now r).2).1
              (genSessions now (genUsers now r).1 (genProducts (genUsers now r).2).2).1
              (genSessions now (genUsers now r).1 (genProducts (genUsers now r).2).2).2).2).1
          (genPurchases now (genUsers now r).1 (genProducts (genUsers now r).2).1
            (genPageViews (genProducts (genUsers now r).2).1
              (genSessions now (genUsers now r).1 (genProducts (genUsers now r).2).2).1
              (genSessions now (genUsers now r).1
                (genProducts (genUsers now r).2).2).2).2).2).1 := by
  simp only [create_sample_data, replaceAll]

/-- C8: in every reachable state (empty creation, runs of the seed
script, reads), every review rating lies between 1 and 5: the seed
generates ratings with randint(1, 5) and the read layer never updates or
deletes rows, while the rating field itself is an unconstrained integer. -/
theorem review_rating_invariant (db : DB) (h : Reachable db) :
    ∀ rev ∈ db.reviews, 1 ≤ rev.rating ∧ rev.rating ≤ 5 := by
  induction h with
  | empty => intro rev hrev; cases hrev
  | seeded now r db0 hdb ih =>
    intro rev hrev
    rw [create_sample_data_reviews now r db0] at hrev
    exact genReviews_rating _ _ _ rev hrev
  | observed op db0 hdb ih =>
    rw [run_read_eq]
    exact ih

def rand0 : RandStream := ⟨fun _ => 0, 0⟩

/-- Closed instance of the rating invariant on the database seeded from
the empty state with the zero stream. -/
theorem review_rating_invariant_witness :
    ((create_sample_data 0 rand0 emptyDB).2.reviews.all
      (fun rev => decide (1 ≤ rev.rating) && decide (rev.rating ≤ 5))) = true :=
  List.all_eq_true.mpr (fun rev hrev => by
    have h := review_rating_invariant ((create_sample_data 0 rand0) emptyDB).2
      (Reachable.seeded 0 rand0 emptyDB Reachable.empty) rev hrev
    simp [h.1, h.2])

